import Mathlib

/-!
OpenLI SMS worker (`src/collector/sms_worker.c`).

A shallow embedding of the SMS worker thread: the packet drain
(`sms_worker_process_packet`), the provisioner-message handler
(`sms_worker_handle_provisioner_message`), the control drain
(`sms_worker_process_sync_thread_message`), the event loop
(`sms_worker_main`) and the thread entry point with its shutdown sequence
(`start_sms_worker_thread`).

The outside world is an oracle: the results that successive `zmq_recv` calls
on the two input sockets will return, the results of successive `zmq_poll`
calls, and the results of the four startup calls.  Every call of an external
function that has an effect is recorded, in order, in a trace of events.
-/

namespace SmsWorker

/-! ## Constants and message types -/

/-- Value of `EAGAIN` in `<errno.h>` (Linux). -/
def EAGAIN : Nat := 11

/-- Value of `EINTR` in `<errno.h>` (Linux). -/
def EINTR : Nat := 4

/-- Modelled from the spec: the enumeration `openli_proto_msgtype_t` is declared in
`netcomms.h`, which is not among the sources.  The seven members named by the
`switch` of `sms_worker_handle_provisioner_message` are constructors of their
own; every other value of the C enumeration is `other code`. -/
inductive openli_proto_msgtype_t where
  | START_VOIPINTERCEPT
  | HALT_VOIPINTERCEPT
  | MODIFY_VOIPINTERCEPT
  | ANNOUNCE_SIP_TARGET
  | WITHDRAW_SIP_TARGET
  | NOMORE_INTERCEPTS
  | DISCONNECT
  | other (code : Nat)
deriving DecidableEq, Repr

/-- Modelled from the spec: the enumeration of top-level export message types is
declared in `collector.h`, which is not among the sources.  The two members
the worker tests for are constructors of their own; every other value is
`other code`. -/
inductive openli_export_type_t where
  | HALT
  | PROVISIONER_MESSAGE
  | other (code : Nat)
deriving DecidableEq, Repr

/-- The fields of a heap-allocated `openli_export_recv_t` that the worker reads:
`ptr` is the address of the message itself (what `free(msg)` is given),
`msgtype` is `data.provmsg.msgtype` and `msgbody` is `data.provmsg.msgbody`
(`none` for a `NULL` pointer). -/
structure openli_export_recv_t where
  ptr : Nat
  type : openli_export_type_t
  msgtype : openli_proto_msgtype_t
  msgbody : Option Nat
deriving DecidableEq, Repr

/-- One result of `zmq_recv(state->zmq_ii_sock, &msg, sizeof(msg), ZMQ_DONTWAIT)`:
the return value `x`, the value of `errno` after the call, and the message
whose pointer was written to `msg` (meaningful when `x > 0`). -/
structure ii_recv_t where
  x : Int
  errno : Nat
  msg : openli_export_recv_t
deriving DecidableEq, Repr

/-- One result of `zmq_recv(state->zmq_colthread_recvsock, &recvd, sizeof(recvd),
ZMQ_DONTWAIT)`: the return value `rc`, the value of `errno` after the call, and
the packet handle `recvd.data.pkt` carried by the message (written to `recvd`
when `rc > 0`; a zero-length message writes nothing). -/
structure col_recv_t where
  rc : Int
  errno : Nat
  pkt : Nat
deriving DecidableEq, Repr

/-- One result of `zmq_poll(topoll, 3, 50)`: the return value `x`, the value of
`errno` after the call, and the `ZMQ_POLLIN` bit of `topoll[0].revents` (control
input), `topoll[1].revents` (packet input) and `topoll[2].revents` (expiry
timer). -/
structure poll_t where
  x : Int
  errno : Nat
  revents0 : Bool
  revents1 : Bool
  revents2 : Bool
deriving DecidableEq, Repr

/-- The results of the four startup calls of `start_sms_worker_thread`, in the
order they are made, and the value of `errno` reported with a failure. -/
structure startup_t where
  ii_bind : Int
  ii_setsockopt : Int
  col_bind : Int
  col_setsockopt : Int
  errno : Nat
deriving DecidableEq, Repr

/-! ## Recorded effects -/

/-- The two input endpoints of the worker. -/
inductive sock_t where
  | zmq_ii_sock
  | zmq_colthread_recvsock
deriving DecidableEq, Repr

/-- The lines handed to `logger`. -/
inductive log_t where
  | packet_recv_error (workerid errno : Nat)
  | unexpected_provisioner_message (workerid : Nat) (msgtype : openli_proto_msgtype_t)
  | ii_recv_error (workerid errno : Nat)
  | starting (workerid : Nat)
  | poll_error (workerid errno : Nat)
  | devdebug_expiry
  | ii_bind_failed (workerid errno : Nat)
  | ii_configure_failed (workerid errno : Nat)
  | col_bind_failed (workerid errno : Nat)
  | col_configure_failed (workerid errno : Nat)
  | halting (workerid : Nat)
deriving DecidableEq, Repr

/-- The calls of external functions that the trace records.
`trace_destroy_packet none` is a call on the still uninitialised local `recvd`.
`zmq_send` stands for publishing a record on a fan-out channel and `close` for
closing a file descriptor; no function of this unit makes either call. -/
inductive Event where
  | logger (line : log_t)
  | trace_destroy_packet (pkt : Option Nat)
  | free (ptr : Nat)
  | timerfd_create (fd : Nat)
  | timerfd_settime (fd : Nat) (seconds : Nat)
  | close (fd : Nat)
  | init_zmq_socket_array (n : Nat)
  | clear_zmq_socket_array (n : Nat)
  | zmq_socket (s : sock_t)
  | zmq_close (s : sock_t)
  | zmq_send (channel : Nat)
deriving DecidableEq, Repr

/-- The worker and its surroundings: the fields of `openli_sms_worker_t` the code
reads (`workerid`, `tracker_threads`), the results the two input sockets will
give to successive receives, the local `purgetimer.fd` of `sms_worker_main`,
the timer descriptors that are open, the next descriptor `timerfd_create` will
hand out, and the trace of effects so far. -/
structure sms_state where
  workerid : Nat
  tracker_threads : Nat
  ii_queue : List ii_recv_t
  col_queue : List col_recv_t
  purgetimer_fd : Nat
  open_timers : List Nat
  next_fd : Nat
  trace : List Event
deriving DecidableEq, Repr

/-! ## `sms_worker_process_packet` -/

/-- The `do ... while (rc > 0)` loop of `sms_worker_process_packet`.  `recvd` is the
local buffer (`none` while uninitialised).  Returns the return code, the
receive results left and the events emitted.  An exhausted list of results is
an empty queue: the receive fails with `EAGAIN`. -/
def sms_worker_process_packet_loop (workerid : Nat) :
    Option Nat → List col_recv_t → Int × List col_recv_t × List Event
  | _, [] => (0, [], [])
  | recvd, r :: q =>
    if r.rc < 0 then
      if r.errno = EAGAIN then (0, q, [])
      else (-1, q, [Event.logger (log_t.packet_recv_error workerid r.errno)])
    else
      let recvd1 := if r.rc > 0 then some r.pkt else recvd
      if r.rc > 0 then
        let rest := sms_worker_process_packet_loop workerid recvd1 q
        (rest.1, rest.2.1, Event.trace_destroy_packet recvd1 :: rest.2.2)
      else (0, q, [Event.trace_destroy_packet recvd1])

/-- `sms_worker_process_packet`: the local `recvd` starts uninitialised. -/
def sms_worker_process_packet (s : sms_state) : Int × sms_state :=
  let r := sms_worker_process_packet_loop s.workerid none s.col_queue
  (r.1, { s with col_queue := r.2.1, trace := s.trace ++ r.2.2 })

/-! ## `sms_worker_handle_provisioner_message` -/

/-- The `switch` of `sms_worker_handle_provisioner_message`: the value of `ret` and
the events of the selected arm. -/
def provisioner_switch (workerid : Nat) (msg : openli_export_recv_t) : Int × List Event :=
  match msg.msgtype with
  | .START_VOIPINTERCEPT => (0, [])
  | .HALT_VOIPINTERCEPT => (0, [])
  | .MODIFY_VOIPINTERCEPT => (0, [])
  | .ANNOUNCE_SIP_TARGET => (0, [])
  | .WITHDRAW_SIP_TARGET => (0, [])
  | .NOMORE_INTERCEPTS => (0, [])
  | .DISCONNECT => (0, [])
  | .other _ =>
    (-1, [Event.logger (log_t.unexpected_provisioner_message workerid msg.msgtype)])

/-- `sms_worker_handle_provisioner_message`: the switch, then the release of the
payload when `msgbody` is not `NULL`. -/
def sms_worker_handle_provisioner_message (workerid : Nat) (msg : openli_export_recv_t) :
    Int × List Event :=
  let sw := provisioner_switch workerid msg
  match msg.msgbody with
  | some body => (sw.1, sw.2 ++ [Event.free body])
  | none => (sw.1, sw.2)

/-! ## `sms_worker_process_sync_thread_message` -/

/-- The `do ... while (x > 0)` loop of `sms_worker_process_sync_thread_message`.
Returns the return code, the receive results left and the events emitted.  An
exhausted list of results is an empty queue: the receive fails with `EAGAIN`. -/
def sms_worker_process_sync_thread_message_loop (workerid : Nat) :
    List ii_recv_t → Int × List ii_recv_t × List Event
  | [] => (1, [], [])
  | r :: q =>
    if r.x < 0 ∧ r.errno ≠ EAGAIN then
      (-1, q, [Event.logger (log_t.ii_recv_error workerid r.errno)])
    else if r.x ≤ 0 then (1, q, [])
    else if r.msg.type = openli_export_type_t.HALT then
      (-1, q, [Event.free r.msg.ptr])
    else if r.msg.type = openli_export_type_t.PROVISIONER_MESSAGE then
      let h := sms_worker_handle_provisioner_message workerid r.msg
      if h.1 < 0 then (-1, q, h.2 ++ [Event.free r.msg.ptr])
      else
        let rest := sms_worker_process_sync_thread_message_loop workerid q
        (rest.1, rest.2.1, h.2 ++ Event.free r.msg.ptr :: rest.2.2)
    else
      let rest := sms_worker_process_sync_thread_message_loop workerid q
      (rest.1, rest.2.1, Event.free r.msg.ptr :: rest.2.2)

/-- `sms_worker_process_sync_thread_message` on the worker state. -/
def sms_worker_process_sync_thread_message (s : sms_state) : Int × sms_state :=
  let r := sms_worker_process_sync_thread_message_loop s.workerid s.ii_queue
  (r.1, { s with ii_queue := r.2.1, trace := s.trace ++ r.2.2 })

/-! ## `sms_worker_main` -/

/-- The three calls that arm a timer: `timerfd_create(CLOCK_MONOTONIC, 0)` hands out
a new descriptor, which is stored in `purgetimer.fd`, and `timerfd_settime`
sets it to fire once after 60 seconds.  Nothing is closed. -/
def arm_purgetimer (s : sms_state) : sms_state :=
  { s with
    purgetimer_fd := s.next_fd
    open_timers := s.next_fd :: s.open_timers
    next_fd := s.next_fd + 1
    trace := s.trace ++ [Event.timerfd_create s.next_fd, Event.timerfd_settime s.next_fd 60] }

/-- Append a `logger` call to the trace. -/
def log (s : sms_state) (line : log_t) : sms_state :=
  { s with trace := s.trace ++ [Event.logger line] }

/-- How one pass through the body of `while (1)` ends. -/
inductive loop_t where
  | continue_ (s : sms_state)
  | break_ (s : sms_state)
deriving DecidableEq, Repr

/-- The `topoll[2]` branch of the loop body: log, create and arm a new timer. -/
def sms_worker_main_timer (p : poll_t) (s : sms_state) : loop_t :=
  if p.revents2 then
    loop_t.continue_ (arm_purgetimer (log s log_t.devdebug_expiry))
  else loop_t.continue_ s

/-- The `topoll[1]` branch of the loop body, followed by the timer branch. -/
def sms_worker_main_packet (p : poll_t) (s : sms_state) : loop_t :=
  if p.revents1 then
    let r := sms_worker_process_packet s
    if r.1 < 0 then loop_t.break_ r.2 else sms_worker_main_timer p r.2
  else sms_worker_main_timer p s

/-- One pass through the body of the `while (1)` loop of `sms_worker_main`, given
the result of its `zmq_poll` call. -/
def sms_worker_main_body (s : sms_state) (p : poll_t) : loop_t :=
  if p.x < 0 then
    if p.errno = EINTR then loop_t.continue_ s
    else loop_t.break_ (log s (log_t.poll_error s.workerid p.errno))
  else if p.x = 0 then loop_t.continue_ s
  else if p.revents0 then
    let r := sms_worker_process_sync_thread_message s
    if r.1 < 0 then loop_t.break_ r.2 else sms_worker_main_packet p r.2
  else sms_worker_main_packet p s

/-- The `while (1)` loop of `sms_worker_main` over the results of its successive
`zmq_poll` calls.  `none`: the poll results ran out before the loop was left,
the worker is still running. -/
def sms_worker_main_loop (s : sms_state) : List poll_t → Option sms_state
  | [] => none
  | p :: ps =>
    match sms_worker_main_body s p with
    | loop_t.break_ s1 => some s1
    | loop_t.continue_ s1 => sms_worker_main_loop s1 ps

/-- `sms_worker_main`: the start-up log line, the first timer, then the loop. -/
def sms_worker_main (s : sms_state) (polls : List poll_t) : Option sms_state :=
  sms_worker_main_loop (arm_purgetimer (log s (log_t.starting s.workerid))) polls

/-! ## `start_sms_worker_thread` -/

/-- The final `do ... while (x > 0)` drain of `start_sms_worker_thread`: a packet is
destroyed only when the receive returned `x > 0`.  Returns the receive results
left and the events emitted. -/
def shutdown_drain_loop : List col_recv_t → List col_recv_t × List Event
  | [] => ([], [])
  | r :: q =>
    if r.rc > 0 then
      let rest := shutdown_drain_loop q
      (rest.1, Event.trace_destroy_packet (some r.pkt) :: rest.2)
    else (q, [])

/-- The shutdown drain on the worker state. -/
def shutdown_drain (s : sms_state) : sms_state :=
  let r := shutdown_drain_loop s.col_queue
  { s with col_queue := r.1, trace := s.trace ++ r.2 }

/-- The code after the label `haltsmsworker`. -/
def haltsmsworker (s : sms_state) : sms_state :=
  { s with trace := s.trace ++
      [Event.logger (log_t.halting s.workerid),
       Event.zmq_close sock_t.zmq_ii_sock,
       Event.zmq_close sock_t.zmq_colthread_recvsock,
       Event.clear_zmq_socket_array s.tracker_threads] }

/-- Append one event to the trace. -/
def emit (s : sms_state) (e : Event) : sms_state :=
  { s with trace := s.trace ++ [e] }

/-- `start_sms_worker_thread`, given the results of the startup calls and of the
successive polls.  `none`: the poll results ran out while `sms_worker_main`
was still looping. -/
def start_sms_worker_thread (s : sms_state) (st : startup_t) (polls : List poll_t) :
    Option sms_state :=
  let s1 := emit (emit s (Event.init_zmq_socket_array s.tracker_threads))
    (Event.zmq_socket sock_t.zmq_ii_sock)
  if st.ii_bind < 0 then
    some (haltsmsworker (log s1 (log_t.ii_bind_failed s.workerid st.errno)))
  else if st.ii_setsockopt ≠ 0 then
    some (haltsmsworker (log s1 (log_t.ii_configure_failed s.workerid st.errno)))
  else
    let s2 := emit s1 (Event.zmq_socket sock_t.zmq_colthread_recvsock)
    if st.col_bind < 0 then
      some (haltsmsworker (log s2 (log_t.col_bind_failed s.workerid st.errno)))
    else if st.col_setsockopt ≠ 0 then
      some (haltsmsworker (log s2 (log_t.col_configure_failed s.workerid st.errno)))
    else
      match sms_worker_main s2 polls with
      | none => none
      | some s3 => some (haltsmsworker (shutdown_drain s3))

/-! ## Vocabulary of the properties -/

/-- The seven provisioner sub-types that the handler recognises. -/
def recognised (t : openli_proto_msgtype_t) : Bool :=
  decide (t ∈ [openli_proto_msgtype_t.START_VOIPINTERCEPT,
    openli_proto_msgtype_t.HALT_VOIPINTERCEPT,
    openli_proto_msgtype_t.MODIFY_VOIPINTERCEPT,
    openli_proto_msgtype_t.ANNOUNCE_SIP_TARGET,
    openli_proto_msgtype_t.WITHDRAW_SIP_TARGET,
    openli_proto_msgtype_t.NOMORE_INTERCEPTS,
    openli_proto_msgtype_t.DISCONNECT])

/-- The release of the payload of a provisioner message: one `free` when `msgbody`
is attached, nothing otherwise. -/
def payload_release (msg : openli_export_recv_t) : List Event :=
  match msg.msgbody with
  | some body => [Event.free body]
  | none => []

/-- The pointers released by `free` in a list of events, in order. -/
def freed (ev : List Event) : List Nat :=
  ev.filterMap (fun e => match e with
    | Event.free ptr => some ptr
    | _ => none)

/-- The handles given to `trace_destroy_packet` in a list of events, in order. -/
def destroyed (ev : List Event) : List (Option Nat) :=
  ev.filterMap (fun e => match e with
    | Event.trace_destroy_packet pkt => some pkt
    | _ => none)

/-- The lines given to `logger` in a list of events, in order. -/
def logged (ev : List Event) : List log_t :=
  ev.filterMap (fun e => match e with
    | Event.logger line => some line
    | _ => none)

/-- The number of records published on the fan-out channels in a list of events. -/
def published (ev : List Event) : Nat :=
  ev.countP (fun e => match e with
    | Event.zmq_send _ => true
    | _ => false)

/-- A control receive result that ends the drain normally: no data (`EAGAIN`) or an
empty receive. -/
def ii_nodata (r : ii_recv_t) : Bool :=
  decide (r.x = 0) || (decide (r.x < 0) && decide (r.errno = EAGAIN))

/-- A control receive result that is a receive error other than `EAGAIN`. -/
def ii_error (r : ii_recv_t) : Bool :=
  decide (r.x < 0) && decide (r.errno ≠ EAGAIN)

/-- A control receive result that delivers a HALT message. -/
def ii_halt (r : ii_recv_t) : Bool :=
  decide (0 < r.x) && decide (r.msg.type = openli_export_type_t.HALT)

/-- A control receive result that delivers a provisioner message of unrecognised
sub-type. -/
def ii_unrecognised (r : ii_recv_t) : Bool :=
  decide (0 < r.x) && decide (r.msg.type = openli_export_type_t.PROVISIONER_MESSAGE)
    && !recognised r.msg.msgtype

/-- A control receive result after which the drain goes on: a message that is
neither HALT nor a provisioner message of unrecognised sub-type. -/
def ii_benign (r : ii_recv_t) : Bool :=
  decide (0 < r.x) && !ii_halt r && !ii_unrecognised r

/-- What handling one message after which the drain goes on records: a provisioner
message has its payload released and is then released itself, any other
message is only released itself. -/
def ii_effects (r : ii_recv_t) : List Event :=
  if r.msg.type = openli_export_type_t.PROVISIONER_MESSAGE then
    payload_release r.msg ++ [Event.free r.msg.ptr]
  else [Event.free r.msg.ptr]

/-- What the result that stops the drain records. -/
def ii_stop_effects (workerid : Nat) (r : ii_recv_t) : List Event :=
  if ii_error r then [Event.logger (log_t.ii_recv_error workerid r.errno)]
  else if ii_halt r then [Event.free r.msg.ptr]
  else if ii_unrecognised r then
    Event.logger (log_t.unexpected_provisioner_message workerid r.msg.msgtype)
      :: (payload_release r.msg ++ [Event.free r.msg.ptr])
  else []

/-- The control drain as the specification words it: the messages are handled in
queue order until the first result that is not a message to go on after; the
return code is `1` when that result is "no data" (or the queue ran out) and
`-1` when it is a HALT message, a provisioner message of unrecognised sub-type
or a receive error. -/
def control_drain_spec (workerid : Nat) (q : List ii_recv_t) :
    Int × List ii_recv_t × List Event :=
  let handled := (q.takeWhile ii_benign).flatMap ii_effects
  match q.dropWhile ii_benign with
  | [] => (1, [], handled)
  | r :: rest =>
    (if ii_nodata r then 1 else -1, rest, handled ++ ii_stop_effects workerid r)

/-- One `trace_destroy_packet` call for each receive result of a list, in order. -/
def destroy_all (pkts : List col_recv_t) : List Event :=
  pkts.map (fun k => Event.trace_destroy_packet (some k.pkt))

/-- A packet receive result that delivers a packet: a message of positive length. -/
def col_packet (r : col_recv_t) : Bool := decide (0 < r.rc)

/-- The packet handles delivered by a list of receive results, in order. -/
def delivered (consumed : List col_recv_t) : List Nat :=
  (consumed.filter col_packet).map (fun r => r.pkt)

/-- The content of the local `recvd` after the receives of a list of packets. -/
def last_handle (recvd : Option Nat) (pkts : List col_recv_t) : Option Nat :=
  pkts.foldl (fun _ k => some k.pkt) recvd

/-- What the packet drain does at the receive that stops it (`none`: the results
ran out, which is "no data"): the return code and the events recorded. -/
def packet_stop (workerid : Nat) (recvd : Option Nat) : Option col_recv_t → Int × List Event
  | none => (0, [])
  | some t =>
    if t.rc < 0 then
      if t.errno = EAGAIN then (0, [])
      else (-1, [Event.logger (log_t.packet_recv_error workerid t.errno)])
    else (0, [Event.trace_destroy_packet recvd])

/-- The events that the event loop and the two drains may record. -/
def loop_event : Event → Bool
  | Event.logger _ => true
  | Event.trace_destroy_packet _ => true
  | Event.free _ => true
  | Event.timerfd_create _ => true
  | Event.timerfd_settime _ _ => true
  | _ => false

/-- The number of times the expiry branch of the loop ran, read off its log line. -/
def firings (ev : List Event) : Nat :=
  ev.count (Event.logger log_t.devdebug_expiry)

/-- What holds between a state of the worker and a later state of the same run of
the event loop: the identity of the worker is kept, the trace is extended by
loop events only, one timer descriptor is added per firing and none is closed,
a prefix of the packet receive results is consumed and, when none of the
consumed results is a zero-length message, the handles destroyed are exactly
the handles delivered, in order. -/
def run_inv (s t : sms_state) : Prop :=
  t.workerid = s.workerid ∧ t.tracker_threads = s.tracker_threads ∧
  ∃ ev consumed, t.trace = s.trace ++ ev ∧ (∀ e ∈ ev, loop_event e = true) ∧
    t.open_timers.length = s.open_timers.length + firings ev ∧
    s.open_timers <:+ t.open_timers ∧
    s.col_queue = consumed ++ t.col_queue ∧
    ((∀ r ∈ consumed, r.rc ≠ 0) → destroyed ev = (delivered consumed).map some)

/-- A worker (identifier 3, two fan-out channels) with empty queues, no timer open
and an empty trace; `timerfd_create` will hand out descriptor 100 next. -/
def idle_worker : sms_state :=
  { workerid := 3, tracker_threads := 2, ii_queue := [], col_queue := [],
    purgetimer_fd := 0, open_timers := [], next_fd := 100, trace := [] }

/-- Poll results of a run in which the expiry timer fires twice and the third poll
fails with an error other than `EINTR`. -/
def two_firings : List poll_t :=
  [⟨1, 0, false, false, true⟩, ⟨1, 0, false, false, true⟩, ⟨-1, 5, false, false, false⟩]

/-- Packet receive results of a queue that holds one packet (handle 7) followed by a
zero-length message. -/
def packet_then_empty_message : List col_recv_t :=
  [⟨8, 0, 7⟩, ⟨0, 0, 0⟩]

/-- Poll results of a run in which the packet input is signalled once and the second
poll fails with an error other than `EINTR`. -/
def packets_then_poll_error : List poll_t :=
  [⟨1, 0, false, true, false⟩, ⟨-1, 5, false, false, false⟩]

/-- Startup results with which the bind of the control-input endpoint fails. -/
def startup_ii_bind_fails : startup_t :=
  { ii_bind := -1, ii_setsockopt := 0, col_bind := 0, col_setsockopt := 0, errno := 98 }

/-- A control receive that delivers a HALT message stored at address 55. -/
def halt_recv : ii_recv_t :=
  ⟨8, 0, ⟨55, openli_export_type_t.HALT, openli_proto_msgtype_t.other 0, none⟩⟩

/-- A control receive that fails with an error other than `EAGAIN`. -/
def error_recv : ii_recv_t :=
  ⟨-1, 5, ⟨0, openli_export_type_t.other 0, openli_proto_msgtype_t.other 0, none⟩⟩

/-- A control receive that delivers a provisioner message of a recognised sub-type,
stored at address 40 with a payload at address 41. -/
def modify_recv : ii_recv_t :=
  ⟨8, 0, ⟨40, openli_export_type_t.PROVISIONER_MESSAGE,
    openli_proto_msgtype_t.MODIFY_VOIPINTERCEPT, some 41⟩⟩

/-- A control receive that delivers a provisioner message of an unrecognised
sub-type, stored at address 50 with a payload at address 51. -/
def unknown_subtype_recv : ii_recv_t :=
  ⟨8, 0, ⟨50, openli_export_type_t.PROVISIONER_MESSAGE,
    openli_proto_msgtype_t.other 99, some 51⟩⟩

/-- A control receive that delivers a message of an unrecognised top-level type,
stored at address 60, whose payload field holds address 61. -/
def unknown_type_recv : ii_recv_t :=
  ⟨8, 0, ⟨60, openli_export_type_t.other 7, openli_proto_msgtype_t.other 0, some 61⟩⟩

/-- Two queued packets, with handles 7 and 9. -/
def two_packets : List col_recv_t :=
  [⟨8, 0, 7⟩, ⟨8, 0, 9⟩]

/-- A poll that reports both the control input and the packet input readable. -/
def both_ready : poll_t :=
  ⟨1, 0, true, true, false⟩

/-- What a run of the thread records up to its first poll when the startup
succeeds, for a worker with identifier 3 and two fan-out channels. -/
def entry_trace : List Event :=
  [Event.init_zmq_socket_array 2, Event.zmq_socket sock_t.zmq_ii_sock,
   Event.zmq_socket sock_t.zmq_colthread_recvsock, Event.logger (log_t.starting 3),
   Event.timerfd_create 100, Event.timerfd_settime 100 60]

/-- What a run of the thread records after the label `haltsmsworker`, for a worker
with identifier 3 and two fan-out channels. -/
def exit_trace : List Event :=
  [Event.logger (log_t.halting 3), Event.zmq_close sock_t.zmq_ii_sock,
   Event.zmq_close sock_t.zmq_colthread_recvsock, Event.clear_zmq_socket_array 2]

/-- The worker `idle_worker` when its thread has finished after one timer was
armed, with the given control results left and the given trace. -/
def finished_worker (ii_left : List ii_recv_t) (tr : List Event) : sms_state :=
  { workerid := 3, tracker_threads := 2, ii_queue := ii_left, col_queue := [],
    purgetimer_fd := 100, open_timers := [100], next_fd := 101, trace := tr }

/-- Startup results with which all four startup calls succeed. -/
def startup_ok : startup_t :=
  { ii_bind := 0, ii_setsockopt := 0, col_bind := 0, col_setsockopt := 0, errno := 0 }

/-- The state carried by the end of one pass through the loop body. -/
def loop_t.state : loop_t → sms_state
  | loop_t.continue_ s => s
  | loop_t.break_ s => s

/-- The state at the top of the `while (1)` loop after the loop body has run once for
each of the given poll results without leaving the loop (`none` when one of
them makes it leave). -/
def sms_worker_main_steps (s : sms_state) : List poll_t → Option sms_state
  | [] => some s
  | p :: ps =>
    match sms_worker_main_body s p with
    | loop_t.break_ _ => none
    | loop_t.continue_ s1 => sms_worker_main_steps s1 ps

/-- The state at the top of the event loop right after a successful startup. -/
def loop_entry (s : sms_state) : sms_state :=
  arm_purgetimer (log
    (emit (emit (emit s (Event.init_zmq_socket_array s.tracker_threads))
      (Event.zmq_socket sock_t.zmq_ii_sock))
      (Event.zmq_socket sock_t.zmq_colthread_recvsock))
    (log_t.starting s.workerid))

/-- The state at the top of the event loop that a run of `start_sms_worker_thread`
is in after a successful startup and one pass through the loop body for each
of the given poll results (`none` when the startup fails or the loop is left
earlier). -/
def thread_reaches (s : sms_state) (st : startup_t) (polls : List poll_t) :
    Option sms_state :=
  if st.ii_bind < 0 ∨ st.ii_setsockopt ≠ 0 ∨ st.col_bind < 0 ∨ st.col_setsockopt ≠ 0 then
    none
  else sms_worker_main_steps (loop_entry s) polls

/-- The events recorded after the label `haltsmsworker`. -/
def teardown (s : sms_state) : List Event :=
  [Event.logger (log_t.halting s.workerid),
   Event.zmq_close sock_t.zmq_ii_sock,
   Event.zmq_close sock_t.zmq_colthread_recvsock,
   Event.clear_zmq_socket_array s.tracker_threads]

/-! ## The provisioner handler -/

theorem provisioner_switch_recognised (w : Nat) (msg : openli_export_recv_t)
    (h : recognised msg.msgtype = true) : provisioner_switch w msg = (0, []) := by
  unfold provisioner_switch
  cases hm : msg.msgtype <;> simp_all [recognised]

theorem provisioner_switch_unrecognised (w : Nat) (msg : openli_export_recv_t)
    (h : recognised msg.msgtype = false) :
    provisioner_switch w msg =
      (-1, [Event.logger (log_t.unexpected_provisioner_message w msg.msgtype)]) := by
  unfold provisioner_switch
  cases hm : msg.msgtype <;> simp_all [recognised]

theorem handler_recognised (w : Nat) (msg : openli_export_recv_t)
    (h : recognised msg.msgtype = true) :
    sms_worker_handle_provisioner_message w msg = (0, payload_release msg) := by
  unfold sms_worker_handle_provisioner_message payload_release
  rw [provisioner_switch_recognised w msg h]
  cases msg.msgbody <;> simp

theorem handler_unrecognised (w : Nat) (msg : openli_export_recv_t)
    (h : recognised msg.msgtype = false) :
    sms_worker_handle_provisioner_message w msg =
      (-1, Event.logger (log_t.unexpected_provisioner_message w msg.msgtype)
        :: payload_release msg) := by
  unfold sms_worker_handle_provisioner_message payload_release
  rw [provisioner_switch_unrecognised w msg h]
  cases msg.msgbody <;> simp

/-- C4: whatever the sub-type of the message and whether the handler returns `0` or
`-1` (it returns `0` exactly on a recognised sub-type), the `free` calls it makes
are exactly one call on the attached payload, and none when `msgbody` is
`NULL`. -/
theorem C4_payload_released_once (w : Nat) (msg : openli_export_recv_t) :
    freed (sms_worker_handle_provisioner_message w msg).2 = msg.msgbody.toList ∧
    (∀ body, msg.msgbody = some body →
      (sms_worker_handle_provisioner_message w msg).2.count (Event.free body) = 1) ∧
    (msg.msgbody = none →
      ∀ ptr, Event.free ptr ∉ (sms_worker_handle_provisioner_message w msg).2) ∧
    (sms_worker_handle_provisioner_message w msg).1 =
      (if recognised msg.msgtype then 0 else -1) := by
  cases hr : recognised msg.msgtype
  · rw [handler_unrecognised w msg hr]
    cases hb : msg.msgbody <;> simp [freed, payload_release, hb]
  · rw [handler_recognised w msg hr]
    cases hb : msg.msgbody <;> simp [freed, payload_release, hb]

/-! ## The control drain -/

theorem sync_loop_cons_benign (w : Nat) (r : ii_recv_t) (q : List ii_recv_t)
    (h : ii_benign r = true) :
    sms_worker_process_sync_thread_message_loop w (r :: q) =
      ((sms_worker_process_sync_thread_message_loop w q).1,
       (sms_worker_process_sync_thread_message_loop w q).2.1,
       ii_effects r ++ (sms_worker_process_sync_thread_message_loop w q).2.2) := by
  simp only [ii_benign, ii_halt, ii_unrecognised, Bool.and_eq_true, Bool.not_eq_true,
    Bool.not_eq_eq_eq_not, Bool.not_true, Bool.and_eq_false_iff, decide_eq_true_eq,
    decide_eq_false_iff_not, Bool.not_eq_false] at h
  obtain ⟨⟨hx, hh⟩, hu⟩ := h
  have hh1 : ¬ r.msg.type = openli_export_type_t.HALT := by
    rcases hh with hh | hh
    · exact absurd hx hh
    · exact hh
  have h1 : ¬ (r.x < 0 ∧ r.errno ≠ EAGAIN) := fun hc => by omega
  have h2 : ¬ r.x ≤ 0 := by omega
  rw [sms_worker_process_sync_thread_message_loop]
  simp only [h1, h2, hh1, if_false]
  by_cases hp : r.msg.type = openli_export_type_t.PROVISIONER_MESSAGE
  · have hr : recognised r.msg.msgtype = true := by
      rcases hu with (hu | hu) | hu
      · exact absurd hx hu
      · exact absurd hp hu
      · exact hu
    simp [hp, handler_recognised w r.msg hr, ii_effects]
  · simp [hp, ii_effects]

theorem sync_loop_cons_stop (w : Nat) (r : ii_recv_t) (q : List ii_recv_t)
    (h : ii_benign r = false) :
    sms_worker_process_sync_thread_message_loop w (r :: q) =
      (if ii_nodata r then 1 else -1, q, ii_stop_effects w r) := by
  rw [sms_worker_process_sync_thread_message_loop]
  by_cases h1 : r.x < 0 ∧ r.errno ≠ EAGAIN
  · have hn : ¬ r.x = 0 := by omega
    simp [h1, ii_nodata, ii_stop_effects, ii_error, hn]
  · by_cases h2 : r.x ≤ 0
    · have hnd : ii_nodata r = true := by
        simp only [ii_nodata, Bool.or_eq_true, Bool.and_eq_true, decide_eq_true_eq]
        by_cases h0 : r.x = 0
        · exact Or.inl h0
        · refine Or.inr ⟨by omega, ?_⟩
          by_contra he
          exact h1 ⟨by omega, he⟩
      have hne : ii_error r = false := by
        simp only [ii_error, Bool.and_eq_false_iff, decide_eq_false_iff_not]
        by_cases h0 : r.x < 0
        · right
          intro he
          exact h1 ⟨h0, he⟩
        · exact Or.inl h0
      have hnh : ii_halt r = false := by
        simp only [ii_halt, Bool.and_eq_false_iff, decide_eq_false_iff_not]
        exact Or.inl (by omega)
      have hnu : ii_unrecognised r = false := by
        simp only [ii_unrecognised, Bool.and_eq_false_iff, decide_eq_false_iff_not]
        exact Or.inl (Or.inl (by omega))
      simp [h1, h2, hnd, ii_stop_effects, hne, hnh, hnu]
    · have hx : 0 < r.x := by omega
      have hn0 : ¬ r.x = 0 := by omega
      have hnl : ¬ r.x < 0 := by omega
      by_cases hh : r.msg.type = openli_export_type_t.HALT
      · simp [h1, h2, hh, ii_nodata, ii_stop_effects, ii_error, ii_halt, hx, hn0, hnl]
      · by_cases hp : r.msg.type = openli_export_type_t.PROVISIONER_MESSAGE
        · have hr : recognised r.msg.msgtype = false := by
            cases hrec : recognised r.msg.msgtype
            · rfl
            · simp [ii_benign, ii_halt, ii_unrecognised, hx, hh, hp, hrec] at h
          simp [h1, h2, hp, handler_unrecognised w r.msg hr, ii_nodata, ii_stop_effects,
            ii_error, ii_halt, ii_unrecognised, hx, hn0, hnl, hr]
        · simp [ii_benign, ii_halt, ii_unrecognised, hx, hh, hp] at h

theorem sync_loop_eq_spec (w : Nat) (q : List ii_recv_t) :
    sms_worker_process_sync_thread_message_loop w q = control_drain_spec w q := by
  induction q with
  | nil => simp [sms_worker_process_sync_thread_message_loop, control_drain_spec]
  | cons r q ih =>
    cases hb : ii_benign r
    · rw [sync_loop_cons_stop w r q hb]
      simp [control_drain_spec, hb]
    · rw [sync_loop_cons_benign w r q hb, ih]
      simp only [control_drain_spec, List.takeWhile_cons, List.dropWhile_cons, hb, if_true,
        List.flatMap_cons]
      cases hd : List.dropWhile ii_benign q <;> simp

theorem sync_loop_benign_append (w : Nat) (pre rest : List ii_recv_t)
    (h : ∀ b ∈ pre, ii_benign b = true) :
    sms_worker_process_sync_thread_message_loop w (pre ++ rest) =
      ((sms_worker_process_sync_thread_message_loop w rest).1,
       (sms_worker_process_sync_thread_message_loop w rest).2.1,
       pre.flatMap ii_effects ++ (sms_worker_process_sync_thread_message_loop w rest).2.2) := by
  induction pre with
  | nil => simp
  | cons b pre ih =>
    have hb : ii_benign b = true := h b (List.mem_cons_self _ _)
    have ih1 := ih (fun c hc => h c (List.mem_cons_of_mem _ hc))
    rw [List.cons_append, sync_loop_cons_benign w b _ hb, ih1]
    simp

theorem sync_loop_at_stop (w : Nat) (pre : List ii_recv_t) (r : ii_recv_t)
    (rest : List ii_recv_t) (hpre : ∀ b ∈ pre, ii_benign b = true)
    (hr : ii_benign r = false) :
    sms_worker_process_sync_thread_message_loop w (pre ++ r :: rest) =
      (if ii_nodata r then 1 else -1, rest,
       pre.flatMap ii_effects ++ ii_stop_effects w r) := by
  rw [sync_loop_benign_append w pre _ hpre, sync_loop_cons_stop w r rest hr]

theorem sync_loop_all_benign (w : Nat) (q : List ii_recv_t)
    (h : ∀ b ∈ q, ii_benign b = true) :
    sms_worker_process_sync_thread_message_loop w q = (1, [], q.flatMap ii_effects) := by
  have := sync_loop_benign_append w q [] h
  simpa [sms_worker_process_sync_thread_message_loop] using this

theorem sync_loop_decompose (q : List ii_recv_t) :
    (∀ b ∈ q, ii_benign b = true) ∨
    ∃ pre r rest, q = pre ++ r :: rest ∧ (∀ b ∈ pre, ii_benign b = true) ∧
      ii_benign r = false := by
  induction q with
  | nil => exact Or.inl (by simp)
  | cons a q ih =>
    cases ha : ii_benign a
    · exact Or.inr ⟨[], a, q, rfl, by simp, ha⟩
    · rcases ih with ih | ⟨pre, r, rest, hq, hpre, hr⟩
      · left
        intro b hb
        rcases List.mem_cons.mp hb with hb | hb
        · rw [hb]; exact ha
        · exact ih b hb
      · refine Or.inr ⟨a :: pre, r, rest, by rw [hq]; rfl, ?_, hr⟩
        intro b hb
        rcases List.mem_cons.mp hb with hb | hb
        · rw [hb]; exact ha
        · exact hpre b hb

theorem stop_classify (r : ii_recv_t) (h : ii_benign r = false) :
    ii_nodata r = false ↔ (ii_halt r = true ∨ ii_unrecognised r = true ∨ ii_error r = true) := by
  by_cases hx : 0 < r.x
  · have h0 : ¬ r.x = 0 := by omega
    have hl : ¬ r.x < 0 := by omega
    have hn : ii_nodata r = false := by simp [ii_nodata, h0, hl]
    have he : ii_error r = false := by simp [ii_error, hl]
    have hb : (!ii_halt r && !ii_unrecognised r) = false := by
      simpa [ii_benign, hx] using h
    rw [hn, he]
    cases hh : ii_halt r <;> cases hu : ii_unrecognised r <;> simp_all
  · have hh : ii_halt r = false := by simp [ii_halt, hx]
    have hu : ii_unrecognised r = false := by simp [ii_unrecognised, hx]
    simp only [hh, hu, Bool.false_eq_true, false_or]
    by_cases h0 : r.x = 0
    · have hl : ¬ r.x < 0 := by omega
      simp [ii_nodata, ii_error, h0]
    · have hl : r.x < 0 := by omega
      simp [ii_nodata, ii_error, h0, hl]

theorem sync_unfold (s : sms_state) :
    sms_worker_process_sync_thread_message s =
      ((sms_worker_process_sync_thread_message_loop s.workerid s.ii_queue).1,
       { s with
         ii_queue := (sms_worker_process_sync_thread_message_loop s.workerid s.ii_queue).2.1
         trace := s.trace ++
           (sms_worker_process_sync_thread_message_loop s.workerid s.ii_queue).2.2 }) := rfl

/-- C6: the control drain is the drain the specification describes
(`control_drain_spec`: handle the messages in queue order up to the first result
that is not a message to go on after).  Its return code is `1` or `-1`; it is
`-1` exactly when, after messages it goes on after, it met a HALT message, a
provisioner message of unrecognised sub-type or a receive error other than
`EAGAIN`; it is `1` exactly when it met none of these before "no data" (an
`EAGAIN` or empty receive, or the end of the results). -/
theorem C6_control_drain_return_code (s : sms_state) :
    sms_worker_process_sync_thread_message s =
      ((control_drain_spec s.workerid s.ii_queue).1,
       { s with
         ii_queue := (control_drain_spec s.workerid s.ii_queue).2.1
         trace := s.trace ++ (control_drain_spec s.workerid s.ii_queue).2.2 }) ∧
    ((sms_worker_process_sync_thread_message s).1 = 1 ∨
      (sms_worker_process_sync_thread_message s).1 = -1) ∧
    ((sms_worker_process_sync_thread_message s).1 = -1 ↔
      ∃ pre r rest, s.ii_queue = pre ++ r :: rest ∧ (∀ b ∈ pre, ii_benign b = true) ∧
        (ii_halt r = true ∨ ii_unrecognised r = true ∨ ii_error r = true)) ∧
    ((sms_worker_process_sync_thread_message s).1 = 1 ↔
      ((∀ b ∈ s.ii_queue, ii_benign b = true) ∨
       ∃ pre r rest, s.ii_queue = pre ++ r :: rest ∧ (∀ b ∈ pre, ii_benign b = true) ∧
        ii_nodata r = true)) := by
  have hfatal : ∀ r : ii_recv_t,
      (ii_halt r = true ∨ ii_unrecognised r = true ∨ ii_error r = true) →
      ii_benign r = false ∧ ii_nodata r = false := by
    intro r hr
    have hb : ii_benign r = false := by
      rcases hr with hr | hr | hr
      · simp [ii_benign, hr]
      · simp [ii_benign, hr]
      · simp only [ii_error, Bool.and_eq_true, decide_eq_true_eq] at hr
        have : ¬ 0 < r.x := by omega
        simp [ii_benign, this]
    exact ⟨hb, (stop_classify r hb).mpr hr⟩
  have hnodata : ∀ r : ii_recv_t, ii_nodata r = true → ii_benign r = false := by
    intro r hr
    simp only [ii_nodata, Bool.or_eq_true, Bool.and_eq_true, decide_eq_true_eq] at hr
    have : ¬ 0 < r.x := by omega
    simp [ii_benign, this]
  refine ⟨by rw [sync_unfold, sync_loop_eq_spec], ?_, ?_, ?_⟩
  · rw [sync_unfold]
    rcases sync_loop_decompose s.ii_queue with h | ⟨pre, r, rest, hq, hpre, hr⟩
    · rw [sync_loop_all_benign _ _ h]; exact Or.inl rfl
    · rw [hq, sync_loop_at_stop _ pre r rest hpre hr]
      cases ii_nodata r <;> simp
  · rw [sync_unfold]
    constructor
    · intro h
      rcases sync_loop_decompose s.ii_queue with hb | ⟨pre, r, rest, hq, hpre, hr⟩
      · rw [sync_loop_all_benign _ _ hb] at h
        simp at h
      · rw [hq, sync_loop_at_stop _ pre r rest hpre hr] at h
        refine ⟨pre, r, rest, hq, hpre, (stop_classify r hr).mp ?_⟩
        cases hn : ii_nodata r
        · rfl
        · simp [hn] at h
    · rintro ⟨pre, r, rest, hq, hpre, hr⟩
      obtain ⟨hb, hn⟩ := hfatal r hr
      rw [hq, sync_loop_at_stop _ pre r rest hpre hb]
      simp [hn]
  · rw [sync_unfold]
    constructor
    · intro h
      rcases sync_loop_decompose s.ii_queue with hb | ⟨pre, r, rest, hq, hpre, hr⟩
      · exact Or.inl hb
      · rw [hq, sync_loop_at_stop _ pre r rest hpre hr] at h
        refine Or.inr ⟨pre, r, rest, hq, hpre, ?_⟩
        cases hn : ii_nodata r
        · simp [hn] at h
        · rfl
    · rintro (hb | ⟨pre, r, rest, hq, hpre, hr⟩)
      · rw [sync_loop_all_benign _ _ hb]
      · rw [hq, sync_loop_at_stop _ pre r rest hpre (hnodata r hr)]
        simp [hr]

/-- C10: control messages whose top-level type is neither HALT nor
PROVISIONER_MESSAGE are skipped silently.  When the queue starts with such
messages, the drain records exactly one `free` for each of them, in order (no
log line, no call of the provisioner handler, whose payload release would
show), and goes on with what follows them; a queue holding only such messages
is emptied with return code `1`. -/
theorem C10_unknown_top_level_type_skipped (s : sms_state) (pre rest : List ii_recv_t)
    (hq : s.ii_queue = pre ++ rest)
    (hpre : ∀ r ∈ pre, 0 < r.x ∧ r.msg.type ≠ openli_export_type_t.HALT ∧
      r.msg.type ≠ openli_export_type_t.PROVISIONER_MESSAGE) :
    sms_worker_process_sync_thread_message s =
      ((sms_worker_process_sync_thread_message_loop s.workerid rest).1,
       { s with
         ii_queue := (sms_worker_process_sync_thread_message_loop s.workerid rest).2.1
         trace := s.trace ++ (pre.map (fun r => Event.free r.msg.ptr) ++
           (sms_worker_process_sync_thread_message_loop s.workerid rest).2.2) }) ∧
    (rest = [] →
      sms_worker_process_sync_thread_message s =
        (1, { s with
              ii_queue := []
              trace := s.trace ++ pre.map (fun r => Event.free r.msg.ptr) })) := by
  have hben : ∀ b ∈ pre, ii_benign b = true := by
    intro b hb
    obtain ⟨hx, hh, hp⟩ := hpre b hb
    simp [ii_benign, ii_halt, ii_unrecognised, hx, hh, hp]
  have heff : pre.flatMap ii_effects = pre.map (fun r => Event.free r.msg.ptr) := by
    clear hq hben
    induction pre with
    | nil => rfl
    | cons a pre ih =>
      have ha := (hpre a (List.mem_cons_self _ _)).2.2
      have ih1 := ih (fun c hc => hpre c (List.mem_cons_of_mem _ hc))
      simp [List.flatMap_cons, ih1, ii_effects, ha]
  have h1 : sms_worker_process_sync_thread_message s =
      ((sms_worker_process_sync_thread_message_loop s.workerid rest).1,
       { s with
         ii_queue := (sms_worker_process_sync_thread_message_loop s.workerid rest).2.1
         trace := s.trace ++ (pre.map (fun r => Event.free r.msg.ptr) ++
           (sms_worker_process_sync_thread_message_loop s.workerid rest).2.2) }) := by
    rw [sync_unfold, hq, sync_loop_benign_append _ pre rest hben, heff]
  refine ⟨h1, ?_⟩
  intro hrest
  rw [h1, hrest]
  simp [sms_worker_process_sync_thread_message_loop]

/-! ## The event loop -/

theorem main_body_sync_break (s : sms_state) (p : poll_t) (hp : 0 < p.x)
    (h0 : p.revents0 = true) (hr : (sms_worker_process_sync_thread_message s).1 < 0) :
    sms_worker_main_body s p = loop_t.break_ (sms_worker_process_sync_thread_message s).2 := by
  have h1 : ¬ p.x < 0 := by omega
  have h2 : ¬ p.x = 0 := by omega
  simp [sms_worker_main_body, h1, h2, h0, hr]

theorem main_loop_sync_break (s : sms_state) (p : poll_t) (ps : List poll_t) (hp : 0 < p.x)
    (h0 : p.revents0 = true) (hr : (sms_worker_process_sync_thread_message s).1 < 0) :
    sms_worker_main_loop s (p :: ps) = some (sms_worker_process_sync_thread_message s).2 := by
  simp [sms_worker_main_loop, main_body_sync_break s p hp h0 hr]

theorem main_loop_steps (pre rest : List poll_t) (s s1 : sms_state)
    (h : sms_worker_main_steps s pre = some s1) :
    sms_worker_main_loop s (pre ++ rest) = sms_worker_main_loop s1 rest := by
  induction pre generalizing s with
  | nil =>
    simp only [sms_worker_main_steps, Option.some.injEq] at h
    rw [h]; rfl
  | cons p ps ih =>
    rw [sms_worker_main_steps] at h
    rw [List.cons_append, sms_worker_main_loop]
    cases hb : sms_worker_main_body s p with
    | break_ s2 => rw [hb] at h; cases h
    | continue_ s2 =>
      rw [hb] at h
      exact ih s2 h

theorem thread_run_from (s0 : sms_state) (st : startup_t) (pre rest : List poll_t)
    (s : sms_state) (h : thread_reaches s0 st pre = some s) :
    start_sms_worker_thread s0 st (pre ++ rest) =
      (sms_worker_main_loop s rest).map (fun m => haltsmsworker (shutdown_drain m)) := by
  unfold thread_reaches at h
  split at h
  · cases h
  · rename_i hc
    have h1 : ¬ st.ii_bind < 0 := fun c => hc (Or.inl c)
    have h2 : ¬ st.ii_setsockopt ≠ 0 := fun c => hc (Or.inr (Or.inl c))
    have h3 : ¬ st.col_bind < 0 := fun c => hc (Or.inr (Or.inr (Or.inl c)))
    have h4 : ¬ st.col_setsockopt ≠ 0 := fun c => hc (Or.inr (Or.inr (Or.inr c)))
    have hm := main_loop_steps pre rest _ s h
    unfold loop_entry at hm
    simp only [start_sms_worker_thread, h1, h2, h3, h4, if_false, sms_worker_main]
    have hw : (emit (emit (emit s0 (Event.init_zmq_socket_array s0.tracker_threads))
          (Event.zmq_socket sock_t.zmq_ii_sock))
          (Event.zmq_socket sock_t.zmq_colthread_recvsock)).workerid = s0.workerid := rfl
    rw [hw, hm]
    cases sms_worker_main_loop s rest <;> rfl

theorem sync_at_unrecognised (s : sms_state) (pre : List ii_recv_t) (r : ii_recv_t)
    (rest : List ii_recv_t) (hq : s.ii_queue = pre ++ r :: rest)
    (hpre : ∀ b ∈ pre, ii_benign b = true) (hx : 0 < r.x)
    (ht : r.msg.type = openli_export_type_t.PROVISIONER_MESSAGE)
    (hu : recognised r.msg.msgtype = false) :
    sms_worker_process_sync_thread_message s =
      (-1, { s with
             ii_queue := rest
             trace := s.trace ++ (pre.flatMap ii_effects ++
               Event.logger (log_t.unexpected_provisioner_message s.workerid r.msg.msgtype)
                 :: (payload_release r.msg ++ [Event.free r.msg.ptr])) }) := by
  have hl : ¬ r.x < 0 := by omega
  have h0 : ¬ r.x = 0 := by omega
  have hun : ii_unrecognised r = true := by simp [ii_unrecognised, hx, ht, hu]
  have hb : ii_benign r = false := by simp [ii_benign, hun]
  have hh : ii_halt r = false := by simp [ii_halt, ht]
  have he : ii_error r = false := by simp [ii_error, hl]
  have hn : ii_nodata r = false := by simp [ii_nodata, hl, h0]
  rw [sync_unfold, hq, sync_loop_at_stop _ pre r rest hpre hb]
  simp [hn, ii_stop_effects, he, hh, hun]

theorem sync_at_halt (s : sms_state) (pre : List ii_recv_t) (r : ii_recv_t)
    (rest : List ii_recv_t) (hq : s.ii_queue = pre ++ r :: rest)
    (hpre : ∀ b ∈ pre, ii_benign b = true) (hx : 0 < r.x)
    (ht : r.msg.type = openli_export_type_t.HALT) :
    sms_worker_process_sync_thread_message s =
      (-1, { s with
             ii_queue := rest
             trace := s.trace ++ (pre.flatMap ii_effects ++ [Event.free r.msg.ptr]) }) := by
  have hl : ¬ r.x < 0 := by omega
  have h0 : ¬ r.x = 0 := by omega
  have hh : ii_halt r = true := by simp [ii_halt, hx, ht]
  have hb : ii_benign r = false := by simp [ii_benign, hh]
  have he : ii_error r = false := by simp [ii_error, hl]
  have hn : ii_nodata r = false := by simp [ii_nodata, hl, h0]
  rw [sync_unfold, hq, sync_loop_at_stop _ pre r rest hpre hb]
  simp [hn, ii_stop_effects, he, hh]

theorem sync_at_error (s : sms_state) (pre : List ii_recv_t) (r : ii_recv_t)
    (rest : List ii_recv_t) (hq : s.ii_queue = pre ++ r :: rest)
    (hpre : ∀ b ∈ pre, ii_benign b = true) (hx : r.x < 0) (he : r.errno ≠ EAGAIN) :
    sms_worker_process_sync_thread_message s =
      (-1, { s with
             ii_queue := rest
             trace := s.trace ++ (pre.flatMap ii_effects ++
               [Event.logger (log_t.ii_recv_error s.workerid r.errno)]) }) := by
  have hl : ¬ 0 < r.x := by omega
  have h0 : ¬ r.x = 0 := by omega
  have hb : ii_benign r = false := by simp [ii_benign, hl]
  have her : ii_error r = true := by simp [ii_error, hx, he]
  have hn : ii_nodata r = false := by simp [ii_nodata, h0, he]
  rw [sync_unfold, hq, sync_loop_at_stop _ pre r rest hpre hb]
  simp [hn, ii_stop_effects, her]

/-- C3: a provisioner message whose sub-type is not one of the seven recognised ones
makes the handler log once and return `-1` (on each recognised sub-type it
returns `0`); the control drain that meets it, after messages it goes on
after, returns `-1`; and the event loop leaves in that same iteration: the
state it leaves with has the packet queue untouched, so no packet receive was
made after the message was seen, and a run of the thread that is in such a
state at the top of the loop goes from there to the shutdown drain and the
teardown. -/
theorem C3_fail_fast_on_unknown_subtype (s : sms_state) (pre : List ii_recv_t)
    (r : ii_recv_t) (rest : List ii_recv_t) (p : poll_t) (ps : List poll_t)
    (hq : s.ii_queue = pre ++ r :: rest) (hpre : ∀ b ∈ pre, ii_benign b = true)
    (hx : 0 < r.x) (ht : r.msg.type = openli_export_type_t.PROVISIONER_MESSAGE)
    (hu : recognised r.msg.msgtype = false) (hp : 0 < p.x) (h0 : p.revents0 = true) :
    sms_worker_handle_provisioner_message s.workerid r.msg =
      (-1, Event.logger (log_t.unexpected_provisioner_message s.workerid r.msg.msgtype)
        :: payload_release r.msg) ∧
    logged (sms_worker_handle_provisioner_message s.workerid r.msg).2 =
      [log_t.unexpected_provisioner_message s.workerid r.msg.msgtype] ∧
    (∀ w m, recognised m.msgtype = true →
      (sms_worker_handle_provisioner_message w m).1 = 0) ∧
    (sms_worker_process_sync_thread_message s).1 = -1 ∧
    sms_worker_main_loop s (p :: ps) =
      some { s with
             ii_queue := rest
             trace := s.trace ++ (pre.flatMap ii_effects ++
               Event.logger (log_t.unexpected_provisioner_message s.workerid r.msg.msgtype)
                 :: (payload_release r.msg ++ [Event.free r.msg.ptr])) } ∧
    (∀ (s0 : sms_state) (st : startup_t) (before : List poll_t),
      thread_reaches s0 st before = some s →
      start_sms_worker_thread s0 st (before ++ p :: ps) =
        some (haltsmsworker (shutdown_drain
          { s with
            ii_queue := rest
            trace := s.trace ++ (pre.flatMap ii_effects ++
              Event.logger (log_t.unexpected_provisioner_message s.workerid r.msg.msgtype)
                :: (payload_release r.msg ++ [Event.free r.msg.ptr])) }))) := by
  have hs := sync_at_unrecognised s pre r rest hq hpre hx ht hu
  have hm := main_loop_sync_break s p ps hp h0 (by rw [hs]; exact Int.negSucc_lt_zero 0)
  rw [hs] at hm
  refine ⟨handler_unrecognised _ _ hu, ?_, ?_, by rw [hs], hm, ?_⟩
  · rw [handler_unrecognised _ _ hu]
    cases hb : r.msg.msgbody <;> simp [logged, payload_release, hb]
  · intro w m hm
    rw [handler_recognised w m hm]
  · intro s0 st before hreach
    rw [thread_run_from s0 st before (p :: ps) s hreach, hm]
    rfl

/-! ## Halt and shutdown -/

theorem drain_loop_packets (pkts tail : List col_recv_t) (hpk : ∀ k ∈ pkts, 0 < k.rc)
    (htl : ∀ t ∈ tail.head?, t.rc ≤ 0) :
    shutdown_drain_loop (pkts ++ tail) = (tail.tail, destroy_all pkts) := by
  induction pkts with
  | nil =>
    cases tail with
    | nil => simp [shutdown_drain_loop, destroy_all]
    | cons t tl =>
      have ht : ¬ t.rc > 0 := by
        have := htl t (by simp)
        omega
      simp [shutdown_drain_loop, destroy_all, ht]
  | cons k pkts ih =>
    have hk : k.rc > 0 := hpk k (List.mem_cons_self _ _)
    have ih1 := ih (fun c hc => hpk c (List.mem_cons_of_mem _ hc))
    simp [shutdown_drain_loop, hk, ih1, destroy_all]

theorem ii_effects_frees (r : ii_recv_t) : ∀ e ∈ ii_effects r, ∃ ptr, e = Event.free ptr := by
  intro e he
  unfold ii_effects payload_release at he
  split at he
  · cases hb : r.msg.msgbody with
    | none => simp [hb] at he; exact ⟨_, he⟩
    | some b =>
      simp [hb] at he
      rcases he with he | he
      · exact ⟨_, he⟩
      · exact ⟨_, he⟩
  · simp at he; exact ⟨_, he⟩

theorem flatMap_ii_effects_frees (pre : List ii_recv_t) :
    ∀ e ∈ pre.flatMap ii_effects, ∃ ptr, e = Event.free ptr := by
  intro e he
  rw [List.mem_flatMap] at he
  obtain ⟨r, _, hr⟩ := he
  exact ii_effects_frees r e hr

theorem destroyed_append (a b : List Event) : destroyed (a ++ b) = destroyed a ++ destroyed b := by
  simp [destroyed, List.filterMap_append]

theorem published_append (a b : List Event) : published (a ++ b) = published a + published b := by
  simp [published, List.countP_append]

theorem destroyed_of_frees (ev : List Event) (h : ∀ e ∈ ev, ∃ ptr, e = Event.free ptr) :
    destroyed ev = [] := by
  induction ev with
  | nil => rfl
  | cons e ev ih =>
    obtain ⟨ptr, he⟩ := h e (List.mem_cons_self _ _)
    have ih1 := ih (fun c hc => h c (List.mem_cons_of_mem _ hc))
    simp only [destroyed] at ih1
    simp [destroyed, he, ih1]

theorem published_of_frees (ev : List Event) (h : ∀ e ∈ ev, ∃ ptr, e = Event.free ptr) :
    published ev = 0 := by
  induction ev with
  | nil => rfl
  | cons e ev ih =>
    obtain ⟨ptr, he⟩ := h e (List.mem_cons_self _ _)
    have ih1 := ih (fun c hc => h c (List.mem_cons_of_mem _ hc))
    simp only [published] at ih1
    simp [published, he, ih1]

theorem destroyed_destroy_all (pkts : List col_recv_t) :
    destroyed (destroy_all pkts) = pkts.map (fun k => some k.pkt) := by
  induction pkts with
  | nil => rfl
  | cons k pkts ih =>
    simp only [destroyed, destroy_all] at ih
    simp [destroyed, destroy_all, ih]

theorem published_destroy_all (pkts : List col_recv_t) : published (destroy_all pkts) = 0 := by
  induction pkts with
  | nil => rfl
  | cons k pkts ih =>
    simp only [published, destroy_all] at ih
    simp [published, destroy_all, ih]

/-- C2: when the control drain meets a HALT message (after messages it goes on
after) while the packet queue holds `N` packets followed by "no data", the
event loop leaves in that iteration without a packet receive (the packet queue
is untouched, whatever the poll reported for it), the shutdown drain then makes
exactly `N` `trace_destroy_packet` calls, one per queued packet in order,
nothing is published on a fan-out channel, and the teardown is reached: a run
of the thread that is in such a state at the top of the loop finishes with
exactly these effects. -/
theorem C2_halt_drains_cleanly (s : sms_state) (pre : List ii_recv_t) (r : ii_recv_t)
    (rest : List ii_recv_t) (p : poll_t) (ps : List poll_t) (pkts tail : List col_recv_t)
    (hq : s.ii_queue = pre ++ r :: rest) (hpre : ∀ b ∈ pre, ii_benign b = true)
    (hx : 0 < r.x) (ht : r.msg.type = openli_export_type_t.HALT)
    (hp : 0 < p.x) (h0 : p.revents0 = true)
    (hc : s.col_queue = pkts ++ tail) (hpk : ∀ k ∈ pkts, 0 < k.rc)
    (htl : ∀ t ∈ tail.head?, t.rc ≤ 0) :
    sms_worker_main_loop s (p :: ps) =
      some { s with
             ii_queue := rest
             trace := s.trace ++ (pre.flatMap ii_effects ++ [Event.free r.msg.ptr]) } ∧
    (sms_worker_main_loop s (p :: ps)).map (fun m => haltsmsworker (shutdown_drain m)) =
      some { s with
             ii_queue := rest
             col_queue := tail.tail
             trace := s.trace ++ (pre.flatMap ii_effects ++ [Event.free r.msg.ptr]) ++
               (destroy_all pkts ++ teardown s) } ∧
    destroyed ((pre.flatMap ii_effects ++ [Event.free r.msg.ptr]) ++
      (destroy_all pkts ++ teardown s)) = pkts.map (fun k => some k.pkt) ∧
    (destroyed ((pre.flatMap ii_effects ++ [Event.free r.msg.ptr]) ++
      (destroy_all pkts ++ teardown s))).length = pkts.length ∧
    published ((pre.flatMap ii_effects ++ [Event.free r.msg.ptr]) ++
      (destroy_all pkts ++ teardown s)) = 0 ∧
    (∀ (s0 : sms_state) (st : startup_t) (before : List poll_t),
      thread_reaches s0 st before = some s →
      start_sms_worker_thread s0 st (before ++ p :: ps) =
        some { s with
               ii_queue := rest
               col_queue := tail.tail
               trace := s.trace ++ (pre.flatMap ii_effects ++ [Event.free r.msg.ptr]) ++
                 (destroy_all pkts ++ teardown s) }) := by
  have hs := sync_at_halt s pre r rest hq hpre hx ht
  have hm : sms_worker_main_loop s (p :: ps) =
      some { s with
             ii_queue := rest
             trace := s.trace ++ (pre.flatMap ii_effects ++ [Event.free r.msg.ptr]) } := by
    rw [main_loop_sync_break s p ps hp h0 (by rw [hs]; exact Int.negSucc_lt_zero 0), hs]
  have hd : destroyed ((pre.flatMap ii_effects ++ [Event.free r.msg.ptr]) ++
      (destroy_all pkts ++ teardown s)) = pkts.map (fun k => some k.pkt) := by
    rw [destroyed_append, destroyed_append, destroyed_append, destroyed_destroy_all,
      destroyed_of_frees _ (flatMap_ii_effects_frees pre)]
    simp [destroyed, teardown]
  have hfin : (sms_worker_main_loop s (p :: ps)).map
        (fun m => haltsmsworker (shutdown_drain m)) =
      some { s with
             ii_queue := rest
             col_queue := tail.tail
             trace := s.trace ++ (pre.flatMap ii_effects ++ [Event.free r.msg.ptr]) ++
               (destroy_all pkts ++ teardown s) } := by
    rw [hm]
    simp [haltsmsworker, shutdown_drain, hc, drain_loop_packets pkts tail hpk htl, teardown]
  refine ⟨hm, hfin, hd, by rw [hd, List.length_map], ?_, ?_⟩
  · rw [published_append, published_append, published_append, published_destroy_all,
      published_of_frees _ (flatMap_ii_effects_frees pre)]
    simp [published, teardown]
  · intro s0 st before hreach
    rw [thread_run_from s0 st before (p :: ps) s hreach, hfin]

/-- C9: a HALT message is released exactly once, nothing is logged, no further
control receive is made (what follows the message stays queued) and the drain
returns `-1`, the code it also returns on a receive error other than `EAGAIN`.
The event loop leaves in that iteration in both cases, and the two runs then
go through the same shutdown: they end in states that differ only in the one
event recorded for the stopping receive, `free` of the HALT message against the
error log line; so do the two runs of the thread that are in these states at
the top of the loop. -/
theorem C9_halt_is_not_an_error (s : sms_state) (pre : List ii_recv_t)
    (rh re : ii_recv_t) (rest : List ii_recv_t) (p : poll_t) (ps : List poll_t)
    (hpre : ∀ b ∈ pre, ii_benign b = true)
    (hhx : 0 < rh.x) (hht : rh.msg.type = openli_export_type_t.HALT)
    (hex : re.x < 0) (hee : re.errno ≠ EAGAIN)
    (hp : 0 < p.x) (h0 : p.revents0 = true) :
    sms_worker_process_sync_thread_message { s with ii_queue := pre ++ rh :: rest } =
      (-1, { s with
             ii_queue := rest
             trace := s.trace ++ (pre.flatMap ii_effects ++ [Event.free rh.msg.ptr]) }) ∧
    sms_worker_process_sync_thread_message { s with ii_queue := pre ++ re :: rest } =
      (-1, { s with
             ii_queue := rest
             trace := s.trace ++ (pre.flatMap ii_effects ++
               [Event.logger (log_t.ii_recv_error s.workerid re.errno)]) }) ∧
    (sms_worker_main_loop { s with ii_queue := pre ++ rh :: rest } (p :: ps)).map
        (fun m => haltsmsworker (shutdown_drain m)) =
      some { s with
             ii_queue := rest
             col_queue := (shutdown_drain_loop s.col_queue).1
             trace := s.trace ++ (pre.flatMap ii_effects ++ [Event.free rh.msg.ptr]) ++
               ((shutdown_drain_loop s.col_queue).2 ++ teardown s) } ∧
    (sms_worker_main_loop { s with ii_queue := pre ++ re :: rest } (p :: ps)).map
        (fun m => haltsmsworker (shutdown_drain m)) =
      some { s with
             ii_queue := rest
             col_queue := (shutdown_drain_loop s.col_queue).1
             trace := s.trace ++ (pre.flatMap ii_effects ++
               [Event.logger (log_t.ii_recv_error s.workerid re.errno)]) ++
               ((shutdown_drain_loop s.col_queue).2 ++ teardown s) } ∧
    (∀ (s0 : sms_state) (st : startup_t) (before : List poll_t),
      thread_reaches s0 st before = some { s with ii_queue := pre ++ rh :: rest } →
      start_sms_worker_thread s0 st (before ++ p :: ps) =
        some { s with
               ii_queue := rest
               col_queue := (shutdown_drain_loop s.col_queue).1
               trace := s.trace ++ (pre.flatMap ii_effects ++ [Event.free rh.msg.ptr]) ++
                 ((shutdown_drain_loop s.col_queue).2 ++ teardown s) }) ∧
    (∀ (s0 : sms_state) (st : startup_t) (before : List poll_t),
      thread_reaches s0 st before = some { s with ii_queue := pre ++ re :: rest } →
      start_sms_worker_thread s0 st (before ++ p :: ps) =
        some { s with
               ii_queue := rest
               col_queue := (shutdown_drain_loop s.col_queue).1
               trace := s.trace ++ (pre.flatMap ii_effects ++
                 [Event.logger (log_t.ii_recv_error s.workerid re.errno)]) ++
                 ((shutdown_drain_loop s.col_queue).2 ++ teardown s) }) := by
  have hsh := sync_at_halt { s with ii_queue := pre ++ rh :: rest } pre rh rest rfl hpre hhx hht
  have hse := sync_at_error { s with ii_queue := pre ++ re :: rest } pre re rest rfl hpre hex hee
  have hfh : (sms_worker_main_loop { s with ii_queue := pre ++ rh :: rest } (p :: ps)).map
        (fun m => haltsmsworker (shutdown_drain m)) =
      some { s with
             ii_queue := rest
             col_queue := (shutdown_drain_loop s.col_queue).1
             trace := s.trace ++ (pre.flatMap ii_effects ++ [Event.free rh.msg.ptr]) ++
               ((shutdown_drain_loop s.col_queue).2 ++ teardown s) } := by
    rw [main_loop_sync_break _ p ps hp h0 (by rw [hsh]; exact Int.negSucc_lt_zero 0), hsh]
    simp [haltsmsworker, shutdown_drain, teardown]
  have hfe : (sms_worker_main_loop { s with ii_queue := pre ++ re :: rest } (p :: ps)).map
        (fun m => haltsmsworker (shutdown_drain m)) =
      some { s with
             ii_queue := rest
             col_queue := (shutdown_drain_loop s.col_queue).1
             trace := s.trace ++ (pre.flatMap ii_effects ++
               [Event.logger (log_t.ii_recv_error s.workerid re.errno)]) ++
               ((shutdown_drain_loop s.col_queue).2 ++ teardown s) } := by
    rw [main_loop_sync_break _ p ps hp h0 (by rw [hse]; exact Int.negSucc_lt_zero 0), hse]
    simp [haltsmsworker, shutdown_drain, teardown]
  refine ⟨hsh, hse, hfh, hfe, ?_, ?_⟩
  · intro s0 st before hreach
    rw [thread_run_from s0 st before (p :: ps) _ hreach, hfh]
  · intro s0 st before hreach
    rw [thread_run_from s0 st before (p :: ps) _ hreach, hfe]

/-! ## The packet drain -/

theorem packet_loop_spec (w : Nat) (q : List col_recv_t) (recvd : Option Nat) :
    sms_worker_process_packet_loop w recvd q =
      ((packet_stop w (last_handle recvd (q.takeWhile col_packet))
          (q.dropWhile col_packet).head?).1,
       (q.dropWhile col_packet).tail,
       (q.takeWhile col_packet).map
           (fun k => Event.trace_destroy_packet (some k.pkt)) ++
         (packet_stop w (last_handle recvd (q.takeWhile col_packet))
          (q.dropWhile col_packet).head?).2) := by
  induction q generalizing recvd with
  | nil => simp [sms_worker_process_packet_loop, packet_stop]
  | cons r q ih =>
    rw [sms_worker_process_packet_loop]
    by_cases hneg : r.rc < 0
    · have hc : col_packet r = false := by simp [col_packet]; omega
      by_cases he : r.errno = EAGAIN
      · simp [hneg, he, hc, packet_stop, last_handle]
      · simp [hneg, he, hc, packet_stop, last_handle]
    · by_cases hpos : r.rc > 0
      · have hc : col_packet r = true := by simp [col_packet]; omega
        simp only [hneg, hpos, if_true, if_false, ih (some r.pkt)]
        simp [hc, last_handle]
      · have hc : col_packet r = false := by simp [col_packet]; omega
        simp [hneg, hpos, hc, packet_stop, last_handle]

theorem packet_unfold (s : sms_state) :
    sms_worker_process_packet s =
      ((sms_worker_process_packet_loop s.workerid none s.col_queue).1,
       { s with
         col_queue := (sms_worker_process_packet_loop s.workerid none s.col_queue).2.1
         trace := s.trace ++ (sms_worker_process_packet_loop s.workerid none s.col_queue).2.2 }) :=
  rfl

theorem packet_stop_events (w : Nat) (recvd : Option Nat) (t : Option col_recv_t) :
    ∀ e ∈ (packet_stop w recvd t).2,
      e = Event.trace_destroy_packet recvd ∨
      ∃ errno, e = Event.logger (log_t.packet_recv_error w errno) := by
  intro e he
  cases t with
  | none => simp [packet_stop] at he
  | some t =>
    simp only [packet_stop] at he
    split at he
    · split at he
      · simp at he
      · simp at he; exact Or.inr ⟨_, he⟩
    · simp at he; exact Or.inl he

theorem packet_loop_events (w : Nat) (q : List col_recv_t) (recvd : Option Nat) :
    ∀ e ∈ (sms_worker_process_packet_loop w recvd q).2.2,
      (∃ pkt, e = Event.trace_destroy_packet pkt) ∨
      ∃ errno, e = Event.logger (log_t.packet_recv_error w errno) := by
  intro e he
  rw [packet_loop_spec] at he
  rcases List.mem_append.mp he with he | he
  · obtain ⟨k, _, hk⟩ := List.mem_map.mp he
    exact Or.inl ⟨_, hk.symm⟩
  · rcases packet_stop_events w _ _ e he with h | h
    · exact Or.inl ⟨_, h⟩
    · exact Or.inr h

/-! ## What every run of the event loop preserves -/

theorem run_inv_refl (s : sms_state) : run_inv s s := by
  refine ⟨rfl, rfl, [], [], by simp, by simp, by simp [firings], List.suffix_refl _, by simp, ?_⟩
  intro _
  simp [destroyed, delivered]

theorem delivered_append (a b : List col_recv_t) :
    delivered (a ++ b) = delivered a ++ delivered b := by
  simp [delivered, List.filter_append]

theorem firings_append (a b : List Event) : firings (a ++ b) = firings a + firings b := by
  simp [firings, List.count_append]

theorem run_inv_trans {a b c : sms_state} (h1 : run_inv a b) (h2 : run_inv b c) :
    run_inv a c := by
  obtain ⟨hw1, ht1, ev1, c1, htr1, hev1, hn1, hs1, hq1, hd1⟩ := h1
  obtain ⟨hw2, ht2, ev2, c2, htr2, hev2, hn2, hs2, hq2, hd2⟩ := h2
  refine ⟨hw2.trans hw1, ht2.trans ht1, ev1 ++ ev2, c1 ++ c2, ?_, ?_, ?_, hs1.trans hs2, ?_, ?_⟩
  · rw [htr2, htr1, List.append_assoc]
  · intro e he
    rcases List.mem_append.mp he with he | he
    · exact hev1 e he
    · exact hev2 e he
  · rw [hn2, hn1, firings_append]; omega
  · rw [hq1, hq2, List.append_assoc]
  · intro hz
    rw [destroyed_append, delivered_append, List.map_append,
      hd1 (fun r hr => hz r (List.mem_append_left _ hr)),
      hd2 (fun r hr => hz r (List.mem_append_right _ hr))]

theorem destroyed_eq_nil (ev : List Event)
    (h : ∀ e ∈ ev, ∀ pkt, e ≠ Event.trace_destroy_packet pkt) : destroyed ev = [] := by
  induction ev with
  | nil => rfl
  | cons e ev ih =>
    have ih1 := ih (fun c hc => h c (List.mem_cons_of_mem _ hc))
    have he := h e (List.mem_cons_self _ _)
    simp only [destroyed] at ih1
    cases e <;> simp_all [destroyed]

theorem run_inv_of_trace_step (s t : sms_state) (ev : List Event)
    (hw : t.workerid = s.workerid) (ht : t.tracker_threads = s.tracker_threads)
    (hc : t.col_queue = s.col_queue) (ho : t.open_timers = s.open_timers)
    (htr : t.trace = s.trace ++ ev) (hev : ∀ e ∈ ev, loop_event e = true)
    (hf : Event.logger log_t.devdebug_expiry ∉ ev)
    (hd : ∀ e ∈ ev, ∀ pkt, e ≠ Event.trace_destroy_packet pkt) : run_inv s t := by
  refine ⟨hw, ht, ev, [], htr, hev, ?_, ?_, by simp [hc], ?_⟩
  · rw [ho, firings, List.count_eq_zero.mpr hf, Nat.add_zero]
  · exact ho ▸ List.suffix_refl _
  · intro _
    rw [destroyed_eq_nil ev hd]
    simp [delivered]

theorem ii_stop_effects_events (w : Nat) (r : ii_recv_t) :
    ∀ e ∈ ii_stop_effects w r,
      (∃ ptr, e = Event.free ptr) ∨ (∃ errno, e = Event.logger (log_t.ii_recv_error w errno)) ∨
      ∃ t, e = Event.logger (log_t.unexpected_provisioner_message w t) := by
  intro e he
  simp only [ii_stop_effects] at he
  split at he
  · simp at he; exact Or.inr (Or.inl ⟨_, he⟩)
  · split at he
    · simp at he; exact Or.inl ⟨_, he⟩
    · split at he
      · rcases List.mem_cons.mp he with he | he
        · exact Or.inr (Or.inr ⟨_, he⟩)
        · rcases List.mem_append.mp he with he | he
          · unfold payload_release at he
            cases hb : r.msg.msgbody with
            | none => simp [hb] at he
            | some b => simp [hb] at he; exact Or.inl ⟨_, he⟩
          · simp at he; exact Or.inl ⟨_, he⟩
      · exact absurd he (List.not_mem_nil e)

theorem sync_loop_events (w : Nat) (q : List ii_recv_t) :
    ∀ e ∈ (sms_worker_process_sync_thread_message_loop w q).2.2,
      (∃ ptr, e = Event.free ptr) ∨ (∃ errno, e = Event.logger (log_t.ii_recv_error w errno)) ∨
      ∃ t, e = Event.logger (log_t.unexpected_provisioner_message w t) := by
  intro e he
  rcases sync_loop_decompose q with h | ⟨pre, r, rest, hq, hpre, hr⟩
  · rw [sync_loop_all_benign w q h] at he
    exact Or.inl (flatMap_ii_effects_frees q e he)
  · rw [hq, sync_loop_at_stop w pre r rest hpre hr] at he
    rcases List.mem_append.mp he with he | he
    · exact Or.inl (flatMap_ii_effects_frees pre e he)
    · exact ii_stop_effects_events w r e he

theorem run_inv_sync (s : sms_state) :
    run_inv s (sms_worker_process_sync_thread_message s).2 := by
  refine run_inv_of_trace_step s _ _ rfl rfl rfl rfl rfl ?_ ?_ ?_
  · intro e he
    rcases sync_loop_events _ _ e he with ⟨_, h⟩ | ⟨_, h⟩ | ⟨_, h⟩ <;> rw [h] <;> rfl
  · intro he
    rcases sync_loop_events _ _ _ he with ⟨_, h⟩ | ⟨_, h⟩ | ⟨_, h⟩ <;> simp at h
  · intro e he pkt hp
    rw [hp] at he
    rcases sync_loop_events _ _ _ he with ⟨_, h⟩ | ⟨_, h⟩ | ⟨_, h⟩ <;> simp at h

theorem split_at_stop (q : List col_recv_t) :
    q = (q.takeWhile col_packet ++ (q.dropWhile col_packet).head?.toList) ++
      (q.dropWhile col_packet).tail := by
  have h := List.takeWhile_append_dropWhile col_packet q
  cases hd : q.dropWhile col_packet with
  | nil => rw [hd] at h; simpa using h.symm
  | cons t tl => rw [hd] at h; simpa using h.symm

theorem run_inv_packet (s : sms_state) : run_inv s (sms_worker_process_packet s).2 := by
  have hev := packet_loop_events s.workerid s.col_queue none
  refine ⟨rfl, rfl, (sms_worker_process_packet_loop s.workerid none s.col_queue).2.2,
    s.col_queue.takeWhile col_packet ++ (s.col_queue.dropWhile col_packet).head?.toList,
    rfl, ?_, ?_, List.suffix_refl _, ?_, ?_⟩
  · intro e he
    rcases hev e he with ⟨_, h⟩ | ⟨_, h⟩ <;> rw [h] <;> rfl
  · have : Event.logger log_t.devdebug_expiry ∉
        (sms_worker_process_packet_loop s.workerid none s.col_queue).2.2 := by
      intro he
      rcases hev _ he with ⟨_, h⟩ | ⟨_, h⟩ <;> simp at h
    show s.open_timers.length = s.open_timers.length + firings _
    rw [firings, List.count_eq_zero.mpr this]; rfl
  · rw [packet_unfold, packet_loop_spec]
    exact split_at_stop s.col_queue
  · intro hz
    rw [packet_loop_spec]
    have htake : (s.col_queue.takeWhile col_packet).filter col_packet =
        s.col_queue.takeWhile col_packet :=
      List.filter_eq_self.mpr (fun a ha => List.mem_takeWhile_imp ha)
    have hnot := List.head?_dropWhile_not col_packet s.col_queue
    have hda := destroyed_destroy_all (s.col_queue.takeWhile col_packet)
    simp only [destroy_all] at hda
    cases hd : (s.col_queue.dropWhile col_packet).head? with
    | none =>
      rw [destroyed_append, hda]
      simp [packet_stop, delivered, htake, destroyed]
    | some t =>
      rw [hd] at hnot
      have hnot1 : col_packet t = false := hnot
      have htz : t.rc ≠ 0 := hz t (by simp [hd])
      have hneg : t.rc < 0 := by
        simp [col_packet] at hnot1
        omega
      have hstop : destroyed (packet_stop s.workerid
          (last_handle none (s.col_queue.takeWhile col_packet)) (some t)).2 = [] := by
        apply destroyed_eq_nil
        intro e he pkt hp
        simp only [packet_stop, hneg, if_true] at he
        split at he
        · simp at he
        · simp [hp] at he
      rw [destroyed_append, hstop, hda, delivered_append]
      simp [delivered, htake, hnot1]

theorem run_inv_log (s : sms_state) (line : log_t) (hl : line ≠ log_t.devdebug_expiry) :
    run_inv s (log s line) := by
  refine run_inv_of_trace_step s _ [Event.logger line] rfl rfl rfl rfl rfl ?_ ?_ ?_
  · intro e he
    rw [List.mem_singleton.mp he]; rfl
  · intro he
    have := List.mem_singleton.mp he
    injection this with h1
    exact hl h1.symm
  · intro e he pkt hp
    rw [List.mem_singleton.mp he] at hp
    cases hp

theorem run_inv_rearm (s : sms_state) :
    run_inv s (arm_purgetimer (log s log_t.devdebug_expiry)) := by
  refine ⟨rfl, rfl, [Event.logger log_t.devdebug_expiry, Event.timerfd_create s.next_fd,
    Event.timerfd_settime s.next_fd 60], [], ?_, ?_, ?_, ?_, ?_, ?_⟩
  · simp [arm_purgetimer, log]
  · intro e he
    simp at he
    rcases he with he | he | he <;> rw [he] <;> rfl
  · simp [arm_purgetimer, log, firings]
  · exact List.suffix_cons _ _
  · simp [arm_purgetimer, log]
  · intro _
    simp [destroyed, delivered]

theorem run_inv_timer (p : poll_t) (s : sms_state) :
    run_inv s (sms_worker_main_timer p s).state := by
  unfold sms_worker_main_timer
  split
  · exact run_inv_rearm s
  · exact run_inv_refl s

theorem run_inv_main_packet (p : poll_t) (s : sms_state) :
    run_inv s (sms_worker_main_packet p s).state := by
  unfold sms_worker_main_packet
  split
  · simp only []
    split
    · exact run_inv_packet s
    · exact run_inv_trans (run_inv_packet s) (run_inv_timer p _)
  · exact run_inv_timer p s

theorem run_inv_body (s : sms_state) (p : poll_t) :
    run_inv s (sms_worker_main_body s p).state := by
  unfold sms_worker_main_body
  split
  · split
    · exact run_inv_refl s
    · exact run_inv_log s _ (by simp)
  · split
    · exact run_inv_refl s
    · split
      · simp only []
        split
        · exact run_inv_sync s
        · exact run_inv_trans (run_inv_sync s) (run_inv_main_packet p _)
      · exact run_inv_main_packet p s

theorem run_inv_loop (polls : List poll_t) (s t : sms_state)
    (h : sms_worker_main_loop s polls = some t) : run_inv s t := by
  induction polls generalizing s with
  | nil => simp [sms_worker_main_loop] at h
  | cons p ps ih =>
    have hb := run_inv_body s p
    rw [sms_worker_main_loop] at h
    cases hbody : sms_worker_main_body s p with
    | break_ s1 =>
      rw [hbody] at h hb
      simp only [Option.some.injEq] at h
      rw [← h]
      exact hb
    | continue_ s1 =>
      rw [hbody] at h hb
      exact run_inv_trans hb (ih s1 h)

theorem drain_loop_spec (q : List col_recv_t) :
    shutdown_drain_loop q =
      ((q.dropWhile col_packet).tail, destroy_all (q.takeWhile col_packet)) := by
  induction q with
  | nil => simp [shutdown_drain_loop, destroy_all]
  | cons r q ih =>
    rw [shutdown_drain_loop]
    by_cases hpos : r.rc > 0
    · have hc : col_packet r = true := by simp [col_packet]; omega
      simp [hpos, ih, hc, destroy_all]
    · have hc : col_packet r = false := by simp [col_packet]; omega
      simp [hpos, hc, destroy_all]

theorem run_inv_drain (s : sms_state) : run_inv s (shutdown_drain s) := by
  have htake : (s.col_queue.takeWhile col_packet).filter col_packet =
      s.col_queue.takeWhile col_packet :=
    List.filter_eq_self.mpr (fun a ha => List.mem_takeWhile_imp ha)
  have hnot := List.head?_dropWhile_not col_packet s.col_queue
  refine ⟨rfl, rfl, destroy_all (s.col_queue.takeWhile col_packet),
    s.col_queue.takeWhile col_packet ++ (s.col_queue.dropWhile col_packet).head?.toList,
    ?_, ?_, ?_, List.suffix_refl _, ?_, ?_⟩
  · simp [shutdown_drain, drain_loop_spec]
  · intro e he
    obtain ⟨k, _, hk⟩ := List.mem_map.mp he
    rw [← hk]; rfl
  · have : Event.logger log_t.devdebug_expiry ∉
        destroy_all (s.col_queue.takeWhile col_packet) := by
      intro he
      obtain ⟨k, _, hk⟩ := List.mem_map.mp he
      cases hk
    show s.open_timers.length = s.open_timers.length + firings _
    rw [firings, List.count_eq_zero.mpr this, Nat.add_zero]
  · simp only [shutdown_drain, drain_loop_spec]
    exact split_at_stop s.col_queue
  · intro _
    rw [destroyed_destroy_all, delivered_append]
    cases hd : (s.col_queue.dropWhile col_packet).head? with
    | none => simp [delivered, htake]
    | some t =>
      rw [hd] at hnot
      have hnot1 : col_packet t = false := hnot
      simp [delivered, htake, hnot1]

/-! ## The expiry timer -/

theorem main_timers (s : sms_state) (polls : List poll_t) (t : sms_state)
    (h : sms_worker_main s polls = some t) :
    ∃ ev, t.trace = s.trace ++ ev ∧ (∀ fd, Event.close fd ∉ ev) ∧
      t.open_timers.length = s.open_timers.length + 1 + firings ev ∧
      s.open_timers <:+ t.open_timers := by
  obtain ⟨_, _, ev, _, htr, hev, hn, hs, _, _⟩ := run_inv_loop polls _ t h
  refine ⟨[Event.logger (log_t.starting s.workerid), Event.timerfd_create s.next_fd,
    Event.timerfd_settime s.next_fd 60] ++ ev, ?_, ?_, ?_, ?_⟩
  · rw [htr]
    simp [arm_purgetimer, log]
  · intro fd hfd
    rcases List.mem_append.mp hfd with hfd | hfd
    · simp at hfd
    · have := hev _ hfd
      simp [loop_event] at this
  · rw [hn, firings_append]
    simp [arm_purgetimer, log, firings]
  · exact (List.suffix_cons _ _).trans hs

/-- C5 (as amended): every firing of the expiry timer creates and arms a new timer
descriptor and closes nothing, so the previous descriptors stay open: when
`sms_worker_main` returns, the open timer descriptors are those open at entry,
plus the first timer, plus one per firing, and no `close` was recorded. -/
theorem C5_each_firing_adds_a_timer (s : sms_state) (polls : List poll_t) :
    (∀ t, sms_worker_main s polls = some t →
      ∃ ev, t.trace = s.trace ++ ev ∧ (∀ fd, Event.close fd ∉ ev) ∧
        t.open_timers.length = s.open_timers.length + 1 + firings ev ∧
        s.open_timers <:+ t.open_timers) ∧
    (∀ (p : poll_t) (u : sms_state), p.revents2 = true →
      (sms_worker_main_timer p u).state.open_timers = u.next_fd :: u.open_timers ∧
      (sms_worker_main_timer p u).state.trace =
        u.trace ++ [Event.logger log_t.devdebug_expiry, Event.timerfd_create u.next_fd,
          Event.timerfd_settime u.next_fd 60]) := by
  refine ⟨fun t h => main_timers s polls t h, ?_⟩
  intro p u hp
  simp [sms_worker_main_timer, hp, loop_t.state, arm_purgetimer, log]

/-- C5, the claim as stated fails: after one firing of the expiry timer two timer
descriptors are open, the first one (100) and the one created at the firing
(101), and nothing was closed. -/
theorem C5_counterexample_two_timers_open :
    (sms_worker_main idle_worker
        [⟨1, 0, false, false, true⟩, ⟨-1, 5, false, false, false⟩]).map
      (fun t => (t.open_timers, t.open_timers.length, t.trace)) =
      some ([101, 100], 2,
        [Event.logger (log_t.starting 3), Event.timerfd_create 100,
         Event.timerfd_settime 100 60, Event.logger log_t.devdebug_expiry,
         Event.timerfd_create 101, Event.timerfd_settime 101 60,
         Event.logger (log_t.poll_error 3 5)]) ∧
    ¬ (sms_worker_main idle_worker
        [⟨1, 0, false, false, true⟩, ⟨-1, 5, false, false, false⟩]).map
      (fun t => t.open_timers.length) = some 1 := by
  decide

/-- Witness of C5: a run with two firings that ends on a poll error leaves with
three timer descriptors open. -/
theorem C5_each_firing_adds_a_timer_witness :
    ∃ t, sms_worker_main idle_worker two_firings = some t ∧
      t.open_timers = [102, 101, 100] ∧
      ∃ ev, t.trace = idle_worker.trace ++ ev ∧ (∀ fd, Event.close fd ∉ ev) ∧
        t.open_timers.length = idle_worker.open_timers.length + 1 + firings ev ∧
        idle_worker.open_timers <:+ t.open_timers :=
  ⟨_, rfl, rfl, (C5_each_firing_adds_a_timer idle_worker two_firings).1 _ rfl⟩

/-! ## Frame of the packet drain -/

theorem main_run (s : sms_state) (polls : List poll_t) (s3 : sms_state)
    (h : sms_worker_main s polls = some s3) :
    (shutdown_drain s3).workerid = s.workerid ∧
    (shutdown_drain s3).tracker_threads = s.tracker_threads ∧
    ∃ ev consumed,
      (shutdown_drain s3).trace = s.trace ++
        ([Event.logger (log_t.starting s.workerid), Event.timerfd_create s.next_fd,
          Event.timerfd_settime s.next_fd 60] ++ ev) ∧
      (∀ e ∈ ev, loop_event e = true) ∧
      s.col_queue = consumed ++ (shutdown_drain s3).col_queue ∧
      ((∀ r ∈ consumed, r.rc ≠ 0) → destroyed ev = (delivered consumed).map some) := by
  obtain ⟨hw, ht, ev, consumed, htr, hev, _, _, hq, hd⟩ :=
    run_inv_trans (run_inv_loop polls _ s3 h) (run_inv_drain s3)
  refine ⟨hw, ht, ev, consumed, ?_, hev, hq, hd⟩
  rw [htr]
  simp [arm_purgetimer, log]

theorem thread_success (s : sms_state) (st : startup_t) (polls : List poll_t) (t : sms_state)
    (h1 : ¬ st.ii_bind < 0) (h2 : ¬ st.ii_setsockopt ≠ 0) (h3 : ¬ st.col_bind < 0)
    (h4 : ¬ st.col_setsockopt ≠ 0) (h : start_sms_worker_thread s st polls = some t) :
    ∃ s3, sms_worker_main
        (emit (emit (emit s (Event.init_zmq_socket_array s.tracker_threads))
          (Event.zmq_socket sock_t.zmq_ii_sock))
          (Event.zmq_socket sock_t.zmq_colthread_recvsock)) polls = some s3 ∧
      t = haltsmsworker (shutdown_drain s3) := by
  simp only [start_sms_worker_thread, h1, h2, h3, h4, if_false] at h
  cases hm : sms_worker_main
        (emit (emit (emit s (Event.init_zmq_socket_array s.tracker_threads))
          (Event.zmq_socket sock_t.zmq_ii_sock))
          (Event.zmq_socket sock_t.zmq_colthread_recvsock)) polls with
  | none => rw [hm] at h; cases h
  | some s3 =>
    rw [hm] at h
    simp only [Option.some.injEq] at h
    exact ⟨s3, rfl, h.symm⟩

theorem thread_exit_shape (s : sms_state) (st : startup_t) (polls : List poll_t)
    (t : sms_state) (h : start_sms_worker_thread s st polls = some t) :
    ∃ pre, t.trace = s.trace ++ pre ++ teardown s ∧
      (∀ e ∈ pre, (∀ k, e ≠ Event.zmq_close k) ∧ ∀ n, e ≠ Event.clear_zmq_socket_array n) ∧
      ((st.ii_bind < 0 ∨ st.ii_setsockopt ≠ 0 ∨ st.col_bind < 0 ∨ st.col_setsockopt ≠ 0) →
        Event.logger (log_t.starting s.workerid) ∉ pre ∧ t.open_timers = s.open_timers ∧
        t.ii_queue = s.ii_queue ∧ t.col_queue = s.col_queue ∧
        ∀ polls1, start_sms_worker_thread s st polls1 = some t) ∧
      ((st.ii_bind < 0 ∨ st.ii_setsockopt ≠ 0) →
        Event.zmq_socket sock_t.zmq_colthread_recvsock ∉ pre) := by
  by_cases h1 : st.ii_bind < 0
  · simp only [start_sms_worker_thread, h1, if_true, Option.some.injEq] at h
    refine ⟨[Event.init_zmq_socket_array s.tracker_threads,
      Event.zmq_socket sock_t.zmq_ii_sock,
      Event.logger (log_t.ii_bind_failed s.workerid st.errno)], ?_, ?_, ?_, ?_⟩
    · rw [← h]; simp [haltsmsworker, log, emit, teardown]
    · intro e he; simp at he; rcases he with he | he | he <;> simp [he]
    · intro _
      refine ⟨by simp, by rw [← h]; rfl, by rw [← h]; rfl, by rw [← h]; rfl, ?_⟩
      intro polls1
      simp only [start_sms_worker_thread, h1, if_true, h]
    · intro _; simp
  by_cases h2 : st.ii_setsockopt ≠ 0
  · simp only [start_sms_worker_thread, h1, h2, if_true, if_false, Option.some.injEq,
      ne_eq, not_false_eq_true] at h
    refine ⟨[Event.init_zmq_socket_array s.tracker_threads,
      Event.zmq_socket sock_t.zmq_ii_sock,
      Event.logger (log_t.ii_configure_failed s.workerid st.errno)], ?_, ?_, ?_, ?_⟩
    · rw [← h]; simp [haltsmsworker, log, emit, teardown]
    · intro e he; simp at he; rcases he with he | he | he <;> simp [he]
    · intro _
      refine ⟨by simp, by rw [← h]; rfl, by rw [← h]; rfl, by rw [← h]; rfl, ?_⟩
      intro polls1
      simp only [start_sms_worker_thread, h1, h2, if_true, if_false, h, ne_eq,
        not_false_eq_true]
    · intro _; simp
  by_cases h3 : st.col_bind < 0
  · simp only [start_sms_worker_thread, h1, h2, h3, if_true, if_false,
      Option.some.injEq] at h
    refine ⟨[Event.init_zmq_socket_array s.tracker_threads,
      Event.zmq_socket sock_t.zmq_ii_sock, Event.zmq_socket sock_t.zmq_colthread_recvsock,
      Event.logger (log_t.col_bind_failed s.workerid st.errno)], ?_, ?_, ?_, ?_⟩
    · rw [← h]; simp [haltsmsworker, log, emit, teardown]
    · intro e he; simp at he; rcases he with he | he | he | he <;> simp [he]
    · intro _
      refine ⟨by simp, by rw [← h]; rfl, by rw [← h]; rfl, by rw [← h]; rfl, ?_⟩
      intro polls1
      simp only [start_sms_worker_thread, h1, h2, h3, if_true, if_false, h]
    · rintro (hc | hc)
      · exact absurd hc h1
      · exact absurd hc h2
  by_cases h4 : st.col_setsockopt ≠ 0
  · simp only [start_sms_worker_thread, h1, h2, h3, h4, if_true, if_false,
      Option.some.injEq, ne_eq, not_false_eq_true] at h
    refine ⟨[Event.init_zmq_socket_array s.tracker_threads,
      Event.zmq_socket sock_t.zmq_ii_sock, Event.zmq_socket sock_t.zmq_colthread_recvsock,
      Event.logger (log_t.col_configure_failed s.workerid st.errno)], ?_, ?_, ?_, ?_⟩
    · rw [← h]; simp [haltsmsworker, log, emit, teardown]
    · intro e he; simp at he; rcases he with he | he | he | he <;> simp [he]
    · intro _
      refine ⟨by simp, by rw [← h]; rfl, by rw [← h]; rfl, by rw [← h]; rfl, ?_⟩
      intro polls1
      simp only [start_sms_worker_thread, h1, h2, h3, h4, if_true, if_false, h, ne_eq,
        not_false_eq_true]
    · rintro (hc | hc)
      · exact absurd hc h1
      · exact absurd hc h2
  obtain ⟨s3, hm, ht⟩ := thread_success s st polls t h1 h2 h3 h4 h
  obtain ⟨hw, htt, ev, _, htr, hev, _, _⟩ := main_run _ polls s3 hm
  refine ⟨[Event.init_zmq_socket_array s.tracker_threads,
      Event.zmq_socket sock_t.zmq_ii_sock, Event.zmq_socket sock_t.zmq_colthread_recvsock,
      Event.logger (log_t.starting s.workerid), Event.timerfd_create s.next_fd,
      Event.timerfd_settime s.next_fd 60] ++ ev, ?_, ?_, ?_, ?_⟩
  · rw [ht]
    simp only [haltsmsworker, htr, hw, htt]
    simp [emit, teardown]
  · intro e he
    rcases List.mem_append.mp he with he | he
    · simp at he
      rcases he with he | he | he | he | he | he <;> simp [he]
    · have := hev e he
      constructor
      · intro k hk; rw [hk] at this; simp [loop_event] at this
      · intro n hn; rw [hn] at this; simp [loop_event] at this
  · rintro (hc | hc | hc | hc)
    · exact absurd hc h1
    · exact absurd hc h2
    · exact absurd hc h3
    · exact absurd hc h4
  · rintro (hc | hc)
    · exact absurd hc h1
    · exact absurd hc h2

theorem startup_failure_finishes (s : sms_state) (st : startup_t) (polls : List poll_t)
    (hf : st.ii_bind < 0 ∨ st.ii_setsockopt ≠ 0 ∨ st.col_bind < 0 ∨ st.col_setsockopt ≠ 0) :
    ∃ t, start_sms_worker_thread s st polls = some t := by
  by_cases h1 : st.ii_bind < 0
  · exact ⟨_, by simp only [start_sms_worker_thread, h1, if_true]; rfl⟩
  by_cases h2 : st.ii_setsockopt ≠ 0
  · exact ⟨_, by simp only [start_sms_worker_thread, h1, h2, if_true, if_false, ne_eq,
      not_false_eq_true]; rfl⟩
  by_cases h3 : st.col_bind < 0
  · exact ⟨_, by simp only [start_sms_worker_thread, h1, h2, h3, if_true, if_false]; rfl⟩
  by_cases h4 : st.col_setsockopt ≠ 0
  · exact ⟨_, by simp only [start_sms_worker_thread, h1, h2, h3, h4, if_true, if_false,
      ne_eq, not_false_eq_true]; rfl⟩
  rcases hf with hc | hc | hc | hc
  · exact absurd hc h1
  · exact absurd hc h2
  · exact absurd hc h3
  · exact absurd hc h4

/-- C8 (as amended): whichever way `start_sms_worker_thread` finishes, what it
records ends with the halting log line, `zmq_close` of the control-input
endpoint, `zmq_close` of the packet-input endpoint and the release of the
fan-out channels, and no `zmq_close` or release comes before these.  A
startup failure always finishes, never enters `sms_worker_main` (no start-up
log line, no timer, queues untouched), and the two `zmq_close` calls are made
all the same: after a failed bind or configure of the control-input endpoint
the packet-input endpoint is closed although its `zmq_socket` call was never
made. -/
theorem C8_teardown_order (s : sms_state) (st : startup_t) (polls : List poll_t) :
    (∀ t, start_sms_worker_thread s st polls = some t →
      ∃ pre, t.trace = s.trace ++ pre ++ teardown s ∧
        (∀ e ∈ pre, (∀ k, e ≠ Event.zmq_close k) ∧
          ∀ n, e ≠ Event.clear_zmq_socket_array n) ∧
        ((st.ii_bind < 0 ∨ st.ii_setsockopt ≠ 0) →
          Event.zmq_socket sock_t.zmq_colthread_recvsock ∉ pre)) ∧
    ((st.ii_bind < 0 ∨ st.ii_setsockopt ≠ 0 ∨ st.col_bind < 0 ∨ st.col_setsockopt ≠ 0) →
      ∃ t pre, start_sms_worker_thread s st polls = some t ∧
        t.trace = s.trace ++ pre ++ teardown s ∧
        Event.logger (log_t.starting s.workerid) ∉ pre ∧
        t.open_timers = s.open_timers ∧ t.ii_queue = s.ii_queue ∧
        t.col_queue = s.col_queue) := by
  constructor
  · intro t h
    obtain ⟨pre, htr, hpre, _, hsock⟩ := thread_exit_shape s st polls t h
    exact ⟨pre, htr, hpre, hsock⟩
  · intro hf
    obtain ⟨t, h⟩ := startup_failure_finishes s st polls hf
    obtain ⟨pre, htr, _, hfail, _⟩ := thread_exit_shape s st polls t h
    obtain ⟨hlog, ho, hi, hc, _⟩ := hfail hf
    exact ⟨t, pre, h, htr, hlog, ho, hi, hc⟩

/-- C8, the claim as stated fails: when the bind of the control-input endpoint
fails, `zmq_close` is called on the packet-input endpoint although no
`zmq_socket` call created it. -/
theorem C8_counterexample_close_of_uncreated_endpoint :
    (start_sms_worker_thread idle_worker startup_ii_bind_fails []).map (fun t => t.trace) =
      some [Event.init_zmq_socket_array 2, Event.zmq_socket sock_t.zmq_ii_sock,
        Event.logger (log_t.ii_bind_failed 3 98), Event.logger (log_t.halting 3),
        Event.zmq_close sock_t.zmq_ii_sock, Event.zmq_close sock_t.zmq_colthread_recvsock,
        Event.clear_zmq_socket_array 2] ∧
    ¬ (∀ t, start_sms_worker_thread idle_worker startup_ii_bind_fails [] = some t →
        ∀ k, Event.zmq_close k ∈ t.trace → Event.zmq_socket k ∈ t.trace) := by
  refine ⟨by decide, ?_⟩
  intro hall
  have := hall _ rfl sock_t.zmq_colthread_recvsock (by decide)
  revert this
  decide

/-- Witness of C8: the run in which the bind of the control-input endpoint fails. -/
theorem C8_teardown_order_witness :
    ∃ t, start_sms_worker_thread idle_worker startup_ii_bind_fails [] = some t ∧
      ∃ pre, t.trace = idle_worker.trace ++ pre ++ teardown idle_worker ∧
        (∀ e ∈ pre, (∀ k, e ≠ Event.zmq_close k) ∧
          ∀ n, e ≠ Event.clear_zmq_socket_array n) ∧
        ((startup_ii_bind_fails.ii_bind < 0 ∨ startup_ii_bind_fails.ii_setsockopt ≠ 0) →
          Event.zmq_socket sock_t.zmq_colthread_recvsock ∉ pre) :=
  ⟨_, rfl, (C8_teardown_order idle_worker startup_ii_bind_fails []).1 _ rfl⟩

/-- Witness of C2: a run of the thread in which HALT arrives after a recognised
provisioner message while two packets are queued and the first poll reports
both inputs readable. -/
theorem C2_halt_drains_cleanly_witness :
    start_sms_worker_thread
        { idle_worker with ii_queue := [modify_recv, halt_recv], col_queue := two_packets }
        startup_ok [both_ready] =
      some (finished_worker []
        (entry_trace ++ [Event.free 41, Event.free 40, Event.free 55,
          Event.trace_destroy_packet (some 7), Event.trace_destroy_packet (some 9)] ++
          exit_trace)) :=
  (C2_halt_drains_cleanly
    (loop_entry
      { idle_worker with ii_queue := [modify_recv, halt_recv], col_queue := two_packets })
    [modify_recv] halt_recv [] both_ready [] two_packets [] rfl (by decide) (by decide) rfl
    (by decide) rfl rfl (by decide) (by simp)).2.2.2.2.2
    { idle_worker with ii_queue := [modify_recv, halt_recv], col_queue := two_packets }
    startup_ok [] rfl

/-- Witness of C3: a run of the thread in which a provisioner message of
unrecognised sub-type arrives after a recognised one while two packets are
queued and the first poll reports both inputs readable; the two packets are
destroyed by the shutdown drain. -/
theorem C3_fail_fast_on_unknown_subtype_witness :
    start_sms_worker_thread
        { idle_worker with
          ii_queue := [modify_recv, unknown_subtype_recv, halt_recv]
          col_queue := two_packets }
        startup_ok [both_ready] =
      some (finished_worker [halt_recv]
        (entry_trace ++ [Event.free 41, Event.free 40,
          Event.logger (log_t.unexpected_provisioner_message 3
            (openli_proto_msgtype_t.other 99)),
          Event.free 51, Event.free 50,
          Event.trace_destroy_packet (some 7), Event.trace_destroy_packet (some 9)] ++
          exit_trace)) :=
  (C3_fail_fast_on_unknown_subtype
    (loop_entry
      { idle_worker with
        ii_queue := [modify_recv, unknown_subtype_recv, halt_recv]
        col_queue := two_packets })
    [modify_recv] unknown_subtype_recv [halt_recv] both_ready [] rfl (by decide) (by decide)
    rfl rfl (by decide) rfl).2.2.2.2.2
    { idle_worker with
      ii_queue := [modify_recv, unknown_subtype_recv, halt_recv]
      col_queue := two_packets }
    startup_ok [] rfl

/-- Witness of C9: the run of the thread that meets a HALT message while two packets
are queued; the run that meets a receive error instead records the error log
line where this one records the release of the message. -/
theorem C9_halt_is_not_an_error_witness :
    start_sms_worker_thread
        { idle_worker with ii_queue := [halt_recv], col_queue := two_packets }
        startup_ok [both_ready] =
      some (finished_worker []
        (entry_trace ++ [Event.free 55,
          Event.trace_destroy_packet (some 7), Event.trace_destroy_packet (some 9)] ++
          exit_trace)) :=
  (C9_halt_is_not_an_error (loop_entry { idle_worker with col_queue := two_packets }) []
    halt_recv error_recv [] both_ready [] (by simp) (by decide) rfl (by decide) (by decide)
    (by decide) rfl).2.2.2.2.1
    { idle_worker with ii_queue := [halt_recv], col_queue := two_packets } startup_ok [] rfl

/-- Witness of C10: a control queue that holds two messages of an unrecognised
top-level type; the payload field of neither is released. -/
theorem C10_unknown_top_level_type_skipped_witness :
    sms_worker_process_sync_thread_message
        { idle_worker with ii_queue := [unknown_type_recv, unknown_type_recv] } =
      (1, { idle_worker with trace := [Event.free 60, Event.free 60] }) :=
  (C10_unknown_top_level_type_skipped
    { idle_worker with ii_queue := [unknown_type_recv, unknown_type_recv] }
    [unknown_type_recv, unknown_type_recv] [] rfl (by decide)).2 rfl

/-! ## Packet handles are released once -/

/-- When no packet receive returns a zero-length message, every packet handle that a
receive delivered during a run of the thread, in the packet drain or in the
shutdown drain, is given to `trace_destroy_packet` exactly once, in order of
delivery. -/
theorem packets_released_once_without_empty_message (s : sms_state) (st : startup_t)
    (polls : List poll_t) (t : sms_state)
    (h : start_sms_worker_thread s st polls = some t)
    (hz : ∀ r ∈ s.col_queue, r.rc ≠ 0) :
    ∃ ev consumed, t.trace = s.trace ++ ev ∧ s.col_queue = consumed ++ t.col_queue ∧
      destroyed ev = (delivered consumed).map some := by
  by_cases h1 : st.ii_bind < 0
  · simp only [start_sms_worker_thread, h1, if_true, Option.some.injEq] at h
    refine ⟨[Event.init_zmq_socket_array s.tracker_threads,
      Event.zmq_socket sock_t.zmq_ii_sock,
      Event.logger (log_t.ii_bind_failed s.workerid st.errno)] ++ teardown s, [], ?_, ?_, ?_⟩
    · rw [← h]; simp [haltsmsworker, log, emit, teardown]
    · rw [← h]; rfl
    · simp [destroyed, delivered, teardown]
  by_cases h2 : st.ii_setsockopt ≠ 0
  · simp only [start_sms_worker_thread, h1, h2, if_true, if_false, Option.some.injEq,
      ne_eq, not_false_eq_true] at h
    refine ⟨[Event.init_zmq_socket_array s.tracker_threads,
      Event.zmq_socket sock_t.zmq_ii_sock,
      Event.logger (log_t.ii_configure_failed s.workerid st.errno)] ++ teardown s,
      [], ?_, ?_, ?_⟩
    · rw [← h]; simp [haltsmsworker, log, emit, teardown]
    · rw [← h]; rfl
    · simp [destroyed, delivered, teardown]
  by_cases h3 : st.col_bind < 0
  · simp only [start_sms_worker_thread, h1, h2, h3, if_true, if_false,
      Option.some.injEq] at h
    refine ⟨[Event.init_zmq_socket_array s.tracker_threads,
      Event.zmq_socket sock_t.zmq_ii_sock, Event.zmq_socket sock_t.zmq_colthread_recvsock,
      Event.logger (log_t.col_bind_failed s.workerid st.errno)] ++ teardown s, [], ?_, ?_, ?_⟩
    · rw [← h]; simp [haltsmsworker, log, emit, teardown]
    · rw [← h]; rfl
    · simp [destroyed, delivered, teardown]
  by_cases h4 : st.col_setsockopt ≠ 0
  · simp only [start_sms_worker_thread, h1, h2, h3, h4, if_true, if_false,
      Option.some.injEq, ne_eq, not_false_eq_true] at h
    refine ⟨[Event.init_zmq_socket_array s.tracker_threads,
      Event.zmq_socket sock_t.zmq_ii_sock, Event.zmq_socket sock_t.zmq_colthread_recvsock,
      Event.logger (log_t.col_configure_failed s.workerid st.errno)] ++ teardown s,
      [], ?_, ?_, ?_⟩
    · rw [← h]; simp [haltsmsworker, log, emit, teardown]
    · rw [← h]; rfl
    · simp [destroyed, delivered, teardown]
  obtain ⟨s3, hm, ht⟩ := thread_success s st polls t h1 h2 h3 h4 h
  obtain ⟨hw, htt, ev, consumed, htr, _, hq, hd⟩ := main_run _ polls s3 hm
  have hq1 : s.col_queue = consumed ++ (shutdown_drain s3).col_queue := hq
  refine ⟨[Event.init_zmq_socket_array s.tracker_threads,
      Event.zmq_socket sock_t.zmq_ii_sock, Event.zmq_socket sock_t.zmq_colthread_recvsock,
      Event.logger (log_t.starting s.workerid), Event.timerfd_create s.next_fd,
      Event.timerfd_settime s.next_fd 60] ++ ev ++ teardown s, consumed, ?_, ?_, ?_⟩
  · rw [ht]
    simp only [haltsmsworker, htr, hw, htt]
    simp [emit, teardown]
  · rw [ht]; exact hq1
  · rw [destroyed_append, destroyed_append,
      hd (fun r hr => hz r (by rw [hq1]; exact List.mem_append_left _ hr))]
    simp [destroyed, teardown]

/-- C1, the code at the failing input: the packet queue delivers one packet (handle
7) and then a zero-length message.  The zero-length receive leaves `recvd` as
it was, and `sms_worker_process_packet` calls `trace_destroy_packet` on it
again: the one handle delivered is destroyed twice. -/
theorem C1_zero_length_receive_destroys_twice :
    delivered packet_then_empty_message = [7] ∧
    (start_sms_worker_thread { idle_worker with col_queue := packet_then_empty_message }
        startup_ok packets_then_poll_error).map
      (fun t => (t.col_queue, destroyed t.trace,
        t.trace.count (Event.trace_destroy_packet (some 7)))) =
      some ([], [some 7, some 7], 2) := by
  decide

end SmsWorker
